import Mathlib

/-!
Shallow embedding of the landing-page build pipeline (scripts/build.mjs).

Strings are modelled as lists of characters (`Str`).  The JavaScript string
and regex operations the script relies on are modelled explicitly:

* `String.prototype.replace` with a string pattern and a string replacement,
  including the `$$` / `$&` / dollar-backquote / dollar-quote substitution
  patterns of GetSubstitution (`replaceFirstSub`);
* the global image-tag regex of `processImages` with its backtracking
  semantics (`imgMatchAt`, `imgGo`);
* the `<picture>`-block protection regex (`pictureMatchAt`, `extractGo`);
* `path.extname`, `String.prototype.trim`, `split`, `endsWith`, `toLowerCase`.

Scanning functions take a fuel argument; fuel equal to the length of the
scanned text makes them total while computing exactly the left-to-right
single-pass regex replacement of the source.
-/

abbrev Str := List Char

/-- Convert a Lean string literal to the character-list representation. -/
def cs (s : String) : Str := s.data

/-- ASCII lower-casing, as applied by `toLowerCase` / the `i` regex flag on
the ASCII patterns used in the script. -/
def lowerChar (c : Char) : Char :=
  if 65 ≤ c.toNat ∧ c.toNat ≤ 90 then Char.ofNat (c.toNat + 32) else c

def lowerStr (s : Str) : Str := s.map lowerChar

/-- Boolean prefix test on character lists. -/
def isPre : Str → Str → Bool
  | [], _ => true
  | _ :: _, [] => false
  | p :: ps, q :: qs => p == q && isPre ps qs

/-- `String.prototype.endsWith`. -/
def isSuf (p s : Str) : Bool := isPre p.reverse s.reverse

/-- Case-insensitive variants (ASCII, matching the `i` flag). -/
def isPreCI (p s : Str) : Bool := isPre (lowerStr p) (lowerStr s)

def isSufCI (p s : Str) : Bool := isSuf (lowerStr p) (lowerStr s)

/-- Substring test: does `p` occur somewhere in `s`? -/
def hasSub (p : Str) : Str → Bool
  | [] => p.isEmpty
  | c :: t => isPre p (c :: t) || hasSub p t

def hasSubCI (p s : Str) : Bool := hasSub (lowerStr p) (lowerStr s)

/-- Number of positions of `s` at which `p` occurs. -/
def countSub (p : Str) : Str → Nat
  | [] => if p.isEmpty then 1 else 0
  | c :: t => (if isPre p (c :: t) then 1 else 0) + countSub p t

/-- First occurrence of `pat` in a string: `some (pre, post)` with
`s = pre ++ pat ++ post`, as used by `String.prototype.replace` with a
string search value (`indexOf` semantics; the empty pattern matches at 0). -/
def splitFirst (pat : Str) : Str → Option (Str × Str)
  | [] => if isPre pat [] then some ([], []) else none
  | c :: t =>
    if isPre pat (c :: t) then some ([], (c :: t).drop pat.length)
    else (splitFirst pat t).map (fun pr => (c :: pr.1, pr.2))

/-- GetSubstitution for a string search value (no capture groups):
`$$`, `$&`, dollar-backquote (preceding text) and dollar-quote (following
text) are interpreted; every other `$` sequence is literal. -/
def substDollar (matched pre post : Str) : Str → Str
  | [] => []
  | c :: rest =>
    if c = '$' then
      match rest with
      | [] => ['$']
      | d :: rest2 =>
        if d = '$' then '$' :: substDollar matched pre post rest2
        else if d = '&' then matched ++ substDollar matched pre post rest2
        else if d.toNat = 96 then pre ++ substDollar matched pre post rest2
        else if d.toNat = 39 then post ++ substDollar matched pre post rest2
        else '$' :: d :: substDollar matched pre post rest2
    else c :: substDollar matched pre post rest

/-- `s.replace(pat, rep)` with a string pattern: replace the first
occurrence, applying dollar substitution to the replacement. -/
def replaceFirstSub (s pat rep : Str) : Str :=
  match splitFirst pat s with
  | none => s
  | some (pre, post) => pre ++ substDollar pat pre post rep ++ post

/-- Global single-character replacement (`.replace(/c/g, rep)` with a
replacement free of dollar patterns, as in `escapeHtml`/`escapeJsonLd`). -/
def replaceAllChar (c : Char) (rep : Str) (s : Str) : Str :=
  s.flatMap (fun x => if x = c then rep else [x])

/-- Decimal rendering of a natural number (string interpolation of the
integer width/height values). -/
def digitChar (d : Nat) : Char :=
  if d = 0 then '0' else if d = 1 then '1' else if d = 2 then '2'
  else if d = 3 then '3' else if d = 4 then '4' else if d = 5 then '5'
  else if d = 6 then '6' else if d = 7 then '7' else if d = 8 then '8'
  else '9'

def natToCharsAux : Nat → Nat → Str
  | 0, _ => []
  | fuel + 1, n =>
    if n < 10 then [digitChar n]
    else natToCharsAux fuel (n / 10) ++ [digitChar (n % 10)]

def natToChars (n : Nat) : Str := natToCharsAux (n + 1) n

/-- JavaScript `String.prototype.trim` whitespace set (the characters that
occur in practice). -/
def isJsSpace (c : Char) : Bool :=
  c.toNat = 32 || c.toNat = 9 || c.toNat = 10 || c.toNat = 13 ||
  c.toNat = 11 || c.toNat = 12 || c.toNat = 160 || c.toNat = 65279

def trimStr (s : Str) : Str :=
  ((s.dropWhile isJsSpace).reverse.dropWhile isJsSpace).reverse

/-- `String.prototype.split` with a single-character separator. -/
def splitOnChar (sep : Char) : Str → List Str
  | [] => [[]]
  | c :: t =>
    let r := splitOnChar sep t
    if c = sep then [] :: r
    else
      match r with
      | [] => [[c]]
      | h :: ts => (c :: h) :: ts

/-- `Array.prototype.join`. -/
def joinSep (sep : Str) : List Str → Str
  | [] => []
  | [x] => x
  | x :: xs => x ++ sep ++ joinSep sep xs

/-- The configuration map (flat string keys to string values); lookups with
a missing key behave like the empty string, which is falsy in the script. -/
abbrev Env := List (Str × Str)

def getv (env : Env) (k : Str) : Str :=
  ((env.find? (fun p => p.1 == k)).map Prod.snd).getD []

/-- JavaScript `a || b` on strings (empty string is falsy). -/
def jsOr (a b : Str) : Str := if a = [] then b else a

/-! ## Tag generators (`escapeHtml`, `generateMetaTags`, `generateAnalyticsTags`,
`generateConversionCode`, structured data) -/

/-- `escapeHtml`: the five sequential global replacements of the script.
The earlier replacements never re-examine text produced by later ones, so
the chained single-character global replaces compose exactly as written. -/
def escapeHtml (s : Str) : Str :=
  if s = [] then []
  else
    replaceAllChar (Char.ofNat 39) (cs ("&#039;"))
      (replaceAllChar (Char.ofNat 34) (cs ("&quot;"))
        (replaceAllChar '>' (cs ("&gt;"))
          (replaceAllChar '<' (cs ("&lt;"))
            (replaceAllChar '&' (cs ("&amp;")) s))))

/-- `generateMetaTags`: OGP / Twitter-card meta fragment. -/
def generateMetaTags (env : Env) : Str :=
  let d := getv env (cs ("SITE_DESCRIPTION"))
  let ti := getv env (cs ("SITE_TITLE"))
  let img := getv env (cs ("OG_IMAGE_URL"))
  let tags : List Str :=
    (if d ≠ [] then
      [cs ("<meta name=\x22description\x22 content=\x22") ++ escapeHtml d ++ cs ("\x22>")] else [])
    ++ [cs ("<meta property=\x22og:type\x22 content=\x22")
        ++ escapeHtml (jsOr (getv env (cs ("OG_TYPE"))) (cs ("website"))) ++ cs ("\x22>")]
    ++ (if ti ≠ [] then
      [cs ("<meta property=\x22og:title\x22 content=\x22") ++ escapeHtml ti ++ cs ("\x22>")] else [])
    ++ (if d ≠ [] then
      [cs ("<meta property=\x22og:description\x22 content=\x22") ++ escapeHtml d ++ cs ("\x22>")] else [])
    ++ (if getv env (cs ("OG_URL")) ≠ [] then
      [cs ("<meta property=\x22og:url\x22 content=\x22")
        ++ escapeHtml (getv env (cs ("OG_URL"))) ++ cs ("\x22>")] else [])
    ++ (if img ≠ [] then
      [cs ("<meta property=\x22og:image\x22 content=\x22") ++ escapeHtml img ++ cs ("\x22>"),
       cs ("<meta property=\x22og:image:width\x22 content=\x22")
        ++ jsOr (getv env (cs ("OG_IMAGE_WIDTH"))) (cs ("1200")) ++ cs ("\x22>"),
       cs ("<meta property=\x22og:image:height\x22 content=\x22")
        ++ jsOr (getv env (cs ("OG_IMAGE_HEIGHT"))) (cs ("630")) ++ cs ("\x22>")] else [])
    ++ (if getv env (cs ("OG_SITE_NAME")) ≠ [] then
      [cs ("<meta property=\x22og:site_name\x22 content=\x22")
        ++ escapeHtml (getv env (cs ("OG_SITE_NAME"))) ++ cs ("\x22>")] else [])
    ++ [cs ("<meta property=\x22og:locale\x22 content=\x22")
        ++ jsOr (getv env (cs ("OG_LOCALE"))) (cs ("ja_JP")) ++ cs ("\x22>")]
    ++ [cs ("<meta name=\x22twitter:card\x22 content=\x22")
        ++ jsOr (getv env (cs ("TWITTER_CARD"))) (cs ("summary_large_image")) ++ cs ("\x22>")]
    ++ (if getv env (cs ("TWITTER_SITE")) ≠ [] then
      [cs ("<meta name=\x22twitter:site\x22 content=\x22")
        ++ escapeHtml (getv env (cs ("TWITTER_SITE"))) ++ cs ("\x22>")] else [])
    ++ (if ti ≠ [] then
      [cs ("<meta name=\x22twitter:title\x22 content=\x22") ++ escapeHtml ti ++ cs ("\x22>")] else [])
    ++ (if d ≠ [] then
      [cs ("<meta name=\x22twitter:description\x22 content=\x22") ++ escapeHtml d ++ cs ("\x22>")] else [])
    ++ (if img ≠ [] then
      [cs ("<meta name=\x22twitter:image\x22 content=\x22") ++ escapeHtml img ++ cs ("\x22>")] else [])
  if tags.length > 0 then cs ("<!-- OGP -->\n") ++ joinSep (cs ("\n")) tags else []

/-- `generateAnalyticsTags`: the five provider snippets, each emitted only
when its identifier key is present, joined by newlines. -/
def generateAnalyticsTags (env : Env) : Str :=
  let ga := getv env (cs ("GA_MEASUREMENT_ID"))
  let pix := getv env (cs ("META_PIXEL_ID"))
  let lid := getv env (cs ("LINE_TAG_ID"))
  let yid := getv env (cs ("YAHOO_RETARGETING_ID"))
  let cid := getv env (cs ("CLARITY_PROJECT_ID"))
  let tags : List Str :=
    (if ga ≠ [] then
      [cs ("\n<!-- Google Analytics -->\n<script async src=\x22https://www.googletagmanager.com/gtag/js?id=")
       ++ ga
       ++ cs ("\x22></script>\n<script>\n  window.dataLayer = window.dataLayer || [];\n  function gtag()\x7bdataLayer.push(arguments);\x7d\n  gtag(\x27js\x27, new Date());\n  gtag(\x27config\x27, \x27")
       ++ ga ++ cs ("\x27);\n  ")
       ++ (if getv env (cs ("GA_ADS_ID")) ≠ [] then
            cs ("gtag(\x27config\x27, \x27") ++ getv env (cs ("GA_ADS_ID")) ++ cs ("\x27);")
          else [])
       ++ cs ("\n</script>")] else [])
    ++ (if pix ≠ [] then
      [cs ("\n<!-- Meta Pixel -->\n<script>\n  !function(f,b,e,v,n,t,s)\x7bif(f.fbq)return;n=f.fbq=function()\x7bn.callMethod?\n  n.callMethod.apply(n,arguments):n.queue.push(arguments)\x7d;if(!f._fbq)f._fbq=n;\n  n.push=n;n.loaded=!0;n.version=\x272.0\x27;n.queue=[];t=b.createElement(e);t.async=!0;\n  t.src=v;s=b.getElementsByTagName(e)[0];s.parentNode.insertBefore(t,s)\x7d(window,\n  document,\x27script\x27,\x27https://connect.facebook.net/en_US/fbevents.js\x27);\n  fbq(\x27init\x27, \x27")
       ++ pix
       ++ cs ("\x27);\n  fbq(\x27track\x27, \x27PageView\x27);\n</script>\n<noscript><img height=\x221\x22 width=\x221\x22 style=\x22display:none\x22 src=\x22https://www.facebook.com/tr?id=")
       ++ pix ++ cs ("&ev=PageView&noscript=1\x22/></noscript>")] else [])
    ++ (if lid ≠ [] then
      [cs ("\n<!-- LINE Tag -->\n<script>\n  (function(g,d,o)\x7bg._ltq=g._ltq||[];g._lt=g._lt||function()\x7bg._ltq.push(arguments)\x7d;\n  var h=d.getElementsByTagName(o)[0];var s=d.createElement(o);s.async=1;\n  s.src=\x27https://d.line-scdn.net/n/line_tag/public/release/v1/lt.js\x27;\n  h.parentNode.insertBefore(s,h)\x7d)(window,document,\x27script\x27);\n  _lt(\x27init\x27,\x7bcustomerType:\x27account\x27,tagId:\x27")
       ++ lid
       ++ cs ("\x27\x7d);\n  _lt(\x27send\x27,\x27pv\x27,[\x27")
       ++ lid
       ++ cs ("\x27]);\n</script>\n<noscript><img height=\x221\x22 width=\x221\x22 style=\x22display:none\x22 src=\x22https://tr.line.me/tag.gif?c_t=lap&t_id=")
       ++ lid ++ cs ("&e=pv&noscript=1\x22/></noscript>")] else [])
    ++ (if yid ≠ [] then
      [cs ("\n<!-- Yahoo Tag -->\n<script async src=\x22https://s.yimg.jp/images/listing/tool/cv/ytag.js\x22></script>\n<script>\n  window.yjDataLayer = window.yjDataLayer || [];\n  function ytag()\x7byjDataLayer.push(arguments);\x7d\n  ytag(\x27config\x27, \x7b yahoo_ss_retargeting_id: \x27")
       ++ yid ++ cs ("\x27 \x7d);\n</script>")] else [])
    ++ (if cid ≠ [] then
      [cs ("\n<!-- Microsoft Clarity -->\n<script>\n  (function(c,l,a,r,i,t,y)\x7bc[a]=c[a]||function()\x7b(c[a].q=c[a].q||[]).push(arguments)\x7d;\n  t=l.createElement(r);t.async=1;t.src=\x22https://www.clarity.ms/tag/\x22+i;\n  y=l.getElementsByTagName(r)[0];y.parentNode.insertBefore(t,y);\n  \x7d)(window,document,\x22clarity\x22,\x22script\x22,\x22")
       ++ cid ++ cs ("\x22);\n</script>")] else [])
  joinSep (cs ("\n")) tags

/-- `parseInt(s, 10)`: leading whitespace, optional sign, leading decimal
digits; no digits gives NaN (modelled as `none`). -/
def parseIntJS (s : Str) : Option Int :=
  let t := s.dropWhile isJsSpace
  let core : Str × Bool :=
    match t with
    | '-' :: r => (r, true)
    | '+' :: r => (r, false)
    | r => (r, false)
  let digits := core.1.takeWhile (fun c => 48 ≤ c.toNat ∧ c.toNat ≤ 57)
  if digits = [] then none
  else
    let n : Nat := digits.foldl (fun acc c => acc * 10 + (c.toNat - 48)) 0
    some (if core.2 then -(n : Int) else (n : Int))

def intToChars (i : Int) : Str :=
  if i < 0 then '-' :: natToChars i.natAbs else natToChars i.natAbs

/-- `JSON.stringify` of an array of numbers (NaN serialises as null). -/
def jsonNumList (xs : List (Option Int)) : Str :=
  '[' :: joinSep (cs (",")) (xs.map (fun o =>
    match o with
    | none => cs ("null")
    | some i => intToChars i)) ++ [']']

/-- `generateConversionCode`: the click-handler skeleton plus one branch per
configured provider and the optional scroll / time-on-page trackers. -/
def generateConversionCode (env : Env) : Str :=
  let ga := getv env (cs ("GA_MEASUREMENT_ID"))
  let code : List Str :=
    [cs ("\n(function() \x7b\n  document.querySelectorAll(\x27[data-cv]\x27).forEach(function(el) \x7b\n    el.addEventListener(\x27click\x27, function() \x7b\n      var cvType = this.dataset.cv;\n      var label = this.textContent || this.innerText;\n")]
    ++ (if ga ≠ [] then
      [cs ("\n      if (typeof gtag === \x27function\x27) \x7b\n        gtag(\x27event\x27, cvType, \x7b event_category: \x27conversion\x27, event_label: label \x7d);\n      \x7d")] else [])
    ++ (if getv env (cs ("GA_ADS_ID")) ≠ [] ∧ getv env (cs ("GA_ADS_CONVERSION_LABEL")) ≠ [] then
      [cs ("\n      if (typeof gtag === \x27function\x27) \x7b\n        gtag(\x27event\x27, \x27conversion\x27, \x7b send_to: \x27")
       ++ getv env (cs ("GA_ADS_ID")) ++ cs ("/")
       ++ getv env (cs ("GA_ADS_CONVERSION_LABEL")) ++ cs ("\x27 \x7d);\n      \x7d")] else [])
    ++ (if getv env (cs ("META_PIXEL_ID")) ≠ [] then
      [cs ("\n      if (typeof fbq === \x27function\x27) \x7b\n        fbq(\x27track\x27, cvType === \x27tel\x27 ? \x27Contact\x27 : \x27Lead\x27);\n      \x7d")] else [])
    ++ (if getv env (cs ("LINE_TAG_ID")) ≠ [] then
      [cs ("\n      if (typeof _lt === \x27function\x27) \x7b\n        _lt(\x27send\x27, \x27cv\x27, \x7b type: cvType \x7d);\n      \x7d")] else [])
    ++ (if getv env (cs ("YAHOO_CONVERSION_ID")) ≠ [] ∧ getv env (cs ("YAHOO_CONVERSION_LABEL")) ≠ [] then
      [cs ("\n      if (typeof ytag === \x27function\x27) \x7b\n        ytag(\x27conversion\x27, \x7b yahoo_conversion_id: \x27")
       ++ getv env (cs ("YAHOO_CONVERSION_ID"))
       ++ cs ("\x27, yahoo_conversion_label: \x27")
       ++ getv env (cs ("YAHOO_CONVERSION_LABEL")) ++ cs ("\x27 \x7d);\n      \x7d")] else [])
    ++ [cs ("\n    \x7d);\n  \x7d);\n")]
    ++ (if getv env (cs ("TRACK_SCROLL_DEPTH")) = cs ("true") ∧ ga ≠ [] then
      [cs ("\n  var scrollTracked = \x7b\x7d;\n  window.addEventListener(\x27scroll\x27, function() \x7b\n    var scrollPercent = Math.floor((window.scrollY + window.innerHeight) / document.body.scrollHeight * 100);\n    [25, 50, 75, 90].forEach(function(point) \x7b\n      if (scrollPercent >= point && !scrollTracked[point]) \x7b\n        scrollTracked[point] = true;\n        if (typeof gtag === \x27function\x27) \x7b gtag(\x27event\x27, \x27scroll_depth\x27, \x7b depth: point \x7d); \x7d\n      \x7d\n    \x7d);\n  \x7d);\n")] else [])
    ++ (if getv env (cs ("TRACK_TIME_ON_PAGE")) ≠ [] ∧ ga ≠ [] then
      [cs ("\n  var timeTracked = \x7b\x7d;\n  var timePoints = ")
       ++ jsonNumList (((splitOnChar ',' (getv env (cs ("TRACK_TIME_ON_PAGE")))).map
            (fun t => parseIntJS (trimStr t))))
       ++ cs (";\n  var startTime = Date.now();\n  setInterval(function() \x7b\n    var elapsed = Math.floor((Date.now() - startTime) / 1000);\n    timePoints.forEach(function(seconds) \x7b\n      if (elapsed >= seconds && !timeTracked[seconds]) \x7b\n        timeTracked[seconds] = true;\n        if (typeof gtag === \x27function\x27) \x7b gtag(\x27event\x27, \x27time_on_page\x27, \x7b seconds: seconds \x7d); \x7d\n      \x7d\n    \x7d);\n  \x7d, 1000);\n")] else [])
    ++ [cs ("\x7d)();")]
  joinSep [] code

/-! ## Structured data (JSON-LD) -/

/-- JSON values produced by the structured-data builders: every leaf the
script puts into a JSON-LD object is a string. -/
inductive Json where
| jstr : Str → Json
| jobj : List (Str × Json) → Json
| jarr : List Json → Json
deriving Repr

/-- `JSON.stringify` escaping of one character inside a string literal. -/
def hexDigit (d : Nat) : Char :=
  if d < 10 then digitChar d
  else if d = 10 then 'a' else if d = 11 then 'b' else if d = 12 then 'c'
  else if d = 13 then 'd' else if d = 14 then 'e' else 'f'

def escJsonChar (c : Char) : Str :=
  if c.toNat = 34 then ['\\', Char.ofNat 34]
  else if c = '\\' then ['\\', '\\']
  else if c.toNat = 10 then ['\\', 'n']
  else if c.toNat = 13 then ['\\', 'r']
  else if c.toNat = 9 then ['\\', 't']
  else if c.toNat = 8 then ['\\', 'b']
  else if c.toNat = 12 then ['\\', 'f']
  else if c.toNat < 32 then
    ['\\', 'u', '0', '0', hexDigit (c.toNat / 16), hexDigit (c.toNat % 16)]
  else [c]

def quoteJson (s : Str) : Str :=
  Char.ofNat 34 :: s.flatMap escJsonChar ++ [Char.ofNat 34]

mutual

/-- `JSON.stringify` (no indentation; object fields in insertion order). -/
def jsonStringify : Json → Str
| Json.jstr s => quoteJson s
| Json.jobj fields => Char.ofNat 123 :: joinSep (cs (",")) (jsonFields fields) ++ [Char.ofNat 125]
| Json.jarr xs => '[' :: joinSep (cs (",")) (jsonElems xs) ++ [']']

def jsonFields : List (Str × Json) → List Str
| [] => []
| f :: fs => (quoteJson f.1 ++ cs (":") ++ jsonStringify f.2) :: jsonFields fs

def jsonElems : List Json → List Str
| [] => []
| x :: xs => jsonStringify x :: jsonElems xs

end

/-- `escapeJsonLd`'s global replacement of the two-character sequence
slash-after-less-than by a backslash-protected one (`/<\//g` with
replacement `<\/`). -/
def escLtSlash : Str → Str
| '<' :: '/' :: t => '<' :: '\\' :: '/' :: escLtSlash t
| c :: t => c :: escLtSlash t
| [] => []

/-- `escapeJsonLd`: serialize and escape the closing-tag sequence. -/
def escapeJsonLd (j : Json) : Str := escLtSlash (jsonStringify j)

/-- Helper for the spread-conditional fields `...(cond && \x7bk: v\x7d)`. -/
def optF (cond : Bool) (k : Str) (v : Json) : List (Str × Json) :=
  if cond then [(k, v)] else []

def jstr (s : Str) : Json := Json.jstr s

/-! FAQ extraction: the global regex over `summary` disclosure blocks.
All quantifier choices of the pattern are forced (greedy attribute runs
must end at a closing angle bracket, lazy gaps stop at the first position
where the rest of the pattern can match), so the leftmost match is computed
by a first-position scan. -/

/-- Index of the first case-insensitive occurrence of `pat`. -/
def findSubCIIdx (pat : Str) : Str → Option Nat
  | [] => if isPreCI pat [] then some 0 else none
  | c :: t =>
    if isPreCI pat (c :: t) then some 0
    else (findSubCIIdx pat t).map (· + 1)

/-- First position at which an opening paragraph tag (`<p` + attribute run
+ closing angle bracket) matches; returns the gap and the tag length. -/
def findPOpen : Str → Option (Nat × Nat)
  | [] => none
  | c :: t =>
    let here : Option Nat :=
      if isPreCI (cs ("<p")) (c :: t) then
        let u := (c :: t).drop 2
        let attrs := u.takeWhile (fun x => x ≠ '>')
        match u.drop attrs.length with
        | '>' :: _ => some (2 + attrs.length + 1)
        | _ => none
      else none
    match here with
    | some l => some (0, l)
    | none => (findPOpen t).map (fun pr => (pr.1 + 1, pr.2))

/-- Attempt of the FAQ regex at the current position: returns the two
capture groups and the total match length. -/
def faqMatchAt (s : Str) : Option (Str × Str × Nat) :=
  if isPreCI (cs ("<summary")) s then
    let u := s.drop 8
    let attrs := u.takeWhile (fun x => x ≠ '>')
    match u.drop attrs.length with
    | '>' :: v =>
      match findSubCIIdx (cs ("</summary>")) v with
      | some j =>
        let q := v.take j
        let w := v.drop (j + 10)
        match findPOpen w with
        | some g =>
          let z := w.drop (g.1 + g.2)
          match findSubCIIdx (cs ("</p>")) z with
          | some j2 =>
            some (q, z.take j2, 8 + attrs.length + 1 + j + 10 + g.1 + g.2 + j2 + 4)
          | none => none
        | none => none
      | none => none
    | _ => none
  else none

/-- The `exec` loop collecting question/answer pairs (pairs with an empty
trimmed question or answer are skipped but the scan still advances). -/
def faqGo : Nat → Str → List (Str × Str)
  | 0, _ => []
  | _ + 1, [] => []
  | fuel + 1, c :: t =>
    match faqMatchAt (c :: t) with
    | some (q, a, n) =>
      (if trimStr q ≠ [] ∧ trimStr a ≠ [] then [(trimStr q, trimStr a)] else [])
        ++ faqGo fuel ((c :: t).drop n)
    | none => faqGo fuel t

def extractFaq (html : Str) : List (Str × Str) := faqGo html.length html

/-- `generateSingleStructuredData`: one JSON-LD object per schema type. -/
def generateSingleStructuredData (ty : Str) (env : Env) (html : Str) : Option Json :=
  let t := trimStr (lowerStr ty)
  if t = cs ("event") then
    let name := jsOr (getv env (cs ("EVENT_NAME"))) (getv env (cs ("SITE_TITLE")))
    if name = [] then none
    else
      some (Json.jobj (
        [(cs ("@context"), jstr (cs ("https://schema.org"))),
         (cs ("@type"), jstr (cs ("Event"))),
         (cs ("name"), jstr name)]
        ++ optF (jsOr (getv env (cs ("EVENT_DESCRIPTION"))) (getv env (cs ("SITE_DESCRIPTION"))) ≠ [])
            (cs ("description"))
            (jstr (jsOr (getv env (cs ("EVENT_DESCRIPTION"))) (getv env (cs ("SITE_DESCRIPTION")))))
        ++ optF (jsOr (getv env (cs ("EVENT_IMAGE_URL"))) (getv env (cs ("OG_IMAGE_URL"))) ≠ [])
            (cs ("image"))
            (jstr (jsOr (getv env (cs ("EVENT_IMAGE_URL"))) (getv env (cs ("OG_IMAGE_URL")))))
        ++ optF (getv env (cs ("EVENT_START_DATE")) ≠ []) (cs ("startDate"))
            (jstr (getv env (cs ("EVENT_START_DATE"))))
        ++ optF (getv env (cs ("EVENT_END_DATE")) ≠ []) (cs ("endDate"))
            (jstr (getv env (cs ("EVENT_END_DATE"))))
        ++ (if getv env (cs ("EVENT_LOCATION_NAME")) ≠ [] ∨ getv env (cs ("EVENT_LOCATION_ADDRESS")) ≠ [] then
            [(cs ("location"), Json.jobj (
              [(cs ("@type"), jstr (cs ("Place")))]
              ++ optF (getv env (cs ("EVENT_LOCATION_NAME")) ≠ []) (cs ("name"))
                  (jstr (getv env (cs ("EVENT_LOCATION_NAME"))))
              ++ optF (getv env (cs ("EVENT_LOCATION_ADDRESS")) ≠ []) (cs ("address"))
                  (jstr (getv env (cs ("EVENT_LOCATION_ADDRESS"))))))] else [])
        ++ (if getv env (cs ("EVENT_OFFER_PRICE")) ≠ [] then
            [(cs ("offers"), Json.jobj (
              [(cs ("@type"), jstr (cs ("Offer"))),
               (cs ("price"), jstr (getv env (cs ("EVENT_OFFER_PRICE")))),
               (cs ("priceCurrency"), jstr (jsOr (getv env (cs ("EVENT_OFFER_CURRENCY"))) (cs ("JPY")))),
               (cs ("availability"), jstr (cs ("https://schema.org/InStock")))]
              ++ optF (jsOr (getv env (cs ("EVENT_OFFER_URL"))) (getv env (cs ("OG_URL"))) ≠ [])
                  (cs ("url"))
                  (jstr (jsOr (getv env (cs ("EVENT_OFFER_URL"))) (getv env (cs ("OG_URL")))))))] else [])
        ++ (if getv env (cs ("EVENT_PERFORMER")) ≠ [] then
            [(cs ("performer"), Json.jobj
              [(cs ("@type"), jstr (cs ("Person"))),
               (cs ("name"), jstr (getv env (cs ("EVENT_PERFORMER"))))])] else [])
        ++ (if getv env (cs ("OG_SITE_NAME")) ≠ [] then
            [(cs ("organizer"), Json.jobj
              [(cs ("@type"), jstr (cs ("Organization"))),
               (cs ("name"), jstr (getv env (cs ("OG_SITE_NAME"))))])] else [])))
  else if t = cs ("product") then
    let name := jsOr (getv env (cs ("PRODUCT_NAME"))) (getv env (cs ("SITE_TITLE")))
    if name = [] then none
    else
      some (Json.jobj (
        [(cs ("@context"), jstr (cs ("https://schema.org"))),
         (cs ("@type"), jstr (cs ("Product"))),
         (cs ("name"), jstr name)]
        ++ optF (getv env (cs ("SITE_DESCRIPTION")) ≠ []) (cs ("description"))
            (jstr (getv env (cs ("SITE_DESCRIPTION"))))
        ++ optF (getv env (cs ("OG_IMAGE_URL")) ≠ []) (cs ("image"))
            (jstr (getv env (cs ("OG_IMAGE_URL"))))
        ++ optF (getv env (cs ("PRODUCT_BRAND")) ≠ []) (cs ("brand"))
            (jstr (getv env (cs ("PRODUCT_BRAND"))))
        ++ (if getv env (cs ("PRODUCT_PRICE")) ≠ [] then
            [(cs ("offers"), Json.jobj
              [(cs ("@type"), jstr (cs ("Offer"))),
               (cs ("price"), jstr (getv env (cs ("PRODUCT_PRICE")))),
               (cs ("priceCurrency"), jstr (jsOr (getv env (cs ("PRODUCT_CURRENCY"))) (cs ("JPY")))),
               (cs ("availability"), jstr (jsOr (getv env (cs ("PRODUCT_AVAILABILITY")))
                 (cs ("https://schema.org/InStock"))))])] else [])))
  else if t = cs ("localbusiness") then
    let name := jsOr (getv env (cs ("BUSINESS_NAME"))) (getv env (cs ("OG_SITE_NAME")))
    if name = [] then none
    else
      let address := getv env (cs ("BUSINESS_ADDRESS"))
      let city := getv env (cs ("BUSINESS_CITY"))
      some (Json.jobj (
        [(cs ("@context"), jstr (cs ("https://schema.org"))),
         (cs ("@type"), jstr (jsOr (getv env (cs ("BUSINESS_TYPE"))) (cs ("LocalBusiness")))),
         (cs ("name"), jstr name)]
        ++ optF (getv env (cs ("SITE_DESCRIPTION")) ≠ []) (cs ("description"))
            (jstr (getv env (cs ("SITE_DESCRIPTION"))))
        ++ optF (jsOr (getv env (cs ("BUSINESS_IMAGE_URL"))) (getv env (cs ("OG_IMAGE_URL"))) ≠ [])
            (cs ("image"))
            (jstr (jsOr (getv env (cs ("BUSINESS_IMAGE_URL"))) (getv env (cs ("OG_IMAGE_URL")))))
        ++ optF (getv env (cs ("BUSINESS_PHONE")) ≠ []) (cs ("telephone"))
            (jstr (getv env (cs ("BUSINESS_PHONE"))))
        ++ optF (jsOr (getv env (cs ("BUSINESS_URL"))) (getv env (cs ("OG_URL"))) ≠ [])
            (cs ("url"))
            (jstr (jsOr (getv env (cs ("BUSINESS_URL"))) (getv env (cs ("OG_URL")))))
        ++ optF (getv env (cs ("BUSINESS_PRICE_RANGE")) ≠ []) (cs ("priceRange"))
            (jstr (getv env (cs ("BUSINESS_PRICE_RANGE"))))
        ++ (if address ≠ [] ∧ city ≠ [] then
            [(cs ("address"), Json.jobj (
              [(cs ("@type"), jstr (cs ("PostalAddress"))),
               (cs ("streetAddress"), jstr address),
               (cs ("addressLocality"), jstr city)]
              ++ optF (getv env (cs ("BUSINESS_REGION")) ≠ []) (cs ("addressRegion"))
                  (jstr (getv env (cs ("BUSINESS_REGION"))))
              ++ optF (getv env (cs ("BUSINESS_POSTAL_CODE")) ≠ []) (cs ("postalCode"))
                  (jstr (getv env (cs ("BUSINESS_POSTAL_CODE"))))
              ++ [(cs ("addressCountry"), jstr (jsOr (getv env (cs ("BUSINESS_COUNTRY"))) (cs ("JP"))))]))]
           else [])))
  else if t = cs ("organization") then
    let name := jsOr (getv env (cs ("ORG_NAME"))) (getv env (cs ("OG_SITE_NAME")))
    let url := jsOr (getv env (cs ("ORG_URL"))) (getv env (cs ("OG_URL")))
    if name = [] ∨ url = [] then none
    else
      some (Json.jobj (
        [(cs ("@context"), jstr (cs ("https://schema.org"))),
         (cs ("@type"), jstr (cs ("Organization"))),
         (cs ("name"), jstr name),
         (cs ("url"), jstr url)]
        ++ optF (jsOr (getv env (cs ("ORG_LOGO_URL"))) (getv env (cs ("OG_IMAGE_URL"))) ≠ [])
            (cs ("logo"))
            (jstr (jsOr (getv env (cs ("ORG_LOGO_URL"))) (getv env (cs ("OG_IMAGE_URL")))))
        ++ optF (jsOr (getv env (cs ("ORG_DESCRIPTION"))) (getv env (cs ("SITE_DESCRIPTION"))) ≠ [])
            (cs ("description"))
            (jstr (jsOr (getv env (cs ("ORG_DESCRIPTION"))) (getv env (cs ("SITE_DESCRIPTION")))))
        ++ optF (getv env (cs ("ORG_EMAIL")) ≠ []) (cs ("email"))
            (jstr (getv env (cs ("ORG_EMAIL"))))
        ++ optF (getv env (cs ("ORG_PHONE")) ≠ []) (cs ("telephone"))
            (jstr (getv env (cs ("ORG_PHONE"))))))
  else if t = cs ("faqpage") then
    let faqItems := (extractFaq html).map (fun qa => Json.jobj
      [(cs ("@type"), jstr (cs ("Question"))),
       (cs ("name"), jstr qa.1),
       (cs ("acceptedAnswer"), Json.jobj
         [(cs ("@type"), jstr (cs ("Answer"))),
          (cs ("text"), jstr qa.2)])])
    if faqItems.length > 0 then
      some (Json.jobj
        [(cs ("@context"), jstr (cs ("https://schema.org"))),
         (cs ("@type"), jstr (cs ("FAQPage"))),
         (cs ("mainEntity"), Json.jarr faqItems)])
    else none
  else none

/-- `generateStructuredData`: comma-separated type list, one script tag per
successfully built object. -/
def generateStructuredData (env : Env) (html : Str) : Str :=
  let typeString := getv env (cs ("STRUCTURED_DATA_TYPE"))
  if typeString = [] then []
  else
    let types := ((splitOnChar ',' typeString).map trimStr).filter (fun t => t ≠ [])
    if types.length = 0 then []
    else
      joinSep (cs ("\n")) (types.filterMap (fun t =>
        (generateSingleStructuredData t env html).map (fun d =>
          cs ("<script type=\x22application/ld+json\x22>") ++ escapeJsonLd d ++ cs ("</script>"))))

/-! ## Image tag rewriter (`processImages`) -/

/-- `s.replace(/\/$/, "")`: remove one trailing slash. -/
def stripTrail (s : Str) : Str :=
  if isSuf (cs ("/")) s then s.take (s.length - 1) else s

/-- `path.extname` (posix): extension of the basename, empty for a name
without a dot, with only a leading dot, or for the special name dot-dot. -/
def extname (s : Str) : Str :=
  let b := (s.reverse.takeWhile (fun c => c ≠ '/')).reverse
  let e := b.reverse.takeWhile (fun c => c ≠ '.')
  if e.length = b.length then []
  else
    let dotIdx := b.length - e.length - 1
    if dotIdx = 0 then []
    else if b = cs ("..") then []
    else b.drop dotIdx

/-- `src.replace(/\.(png|jpe?g)$/i, "")`: the anchored match strips exactly
one of the three suffixes, case-insensitively. -/
def stripImgExt (s : Str) : Str :=
  if isSufCI (cs (".png")) s then s.take (s.length - 4)
  else if isSufCI (cs (".jpeg")) s then s.take (s.length - 5)
  else if isSufCI (cs (".jpg")) s then s.take (s.length - 4)
  else s

/-- The image-dimension table: path key to width and height. -/
abbrev DimTable := List (Str × Nat × Nat)

/-- Lines 569 to 585 of the script: the width/height augmentation of the
attribute text after the `src` attribute.  The table is consulted only when
one of the two attributes is missing; the first key that ends with the
slash-stripped source path wins. -/
def imgDimAfter (dims : DimTable) (before sv after : Str) : Str :=
  let hasWidth := hasSubCI (cs ("width=")) (before ++ after)
  let hasHeight := hasSubCI (cs ("height=")) (before ++ after)
  if ¬ hasWidth ∨ ¬ hasHeight then
    let relativePath := if isPre (cs ("/")) sv then sv.drop 1 else sv
    match dims.find? (fun kv => isSuf relativePath kv.1) with
    | some kv =>
      after
        ++ (if ¬ hasWidth then cs (" width=\x22") ++ natToChars kv.2.1 ++ cs ("\x22") else [])
        ++ (if ¬ hasHeight then cs (" height=\x22") ++ natToChars kv.2.2 ++ cs ("\x22") else [])
    | none => after
  else after

/-- Lines 587 to 590: lazy loading appended to every occurrence except the
first, when no `loading` attribute is present. -/
def imgNewAfter (idx : Nat) (dims : DimTable) (before sv after : Str) : Str :=
  let na := imgDimAfter dims before sv after
  let hasLazy := hasSubCI (cs ("loading=")) (before ++ after)
  if idx ≠ 1 ∧ ¬ hasLazy then na ++ cs (" loading=\x22lazy\x22") else na

/-- The five-source `<picture>` template emitted when an SP variant exists
(lines 615 to 622). -/
def picture5 (spBNP spSrcW bNP before srcW na : Str) : Str :=
  cs ("<picture>\n  <source media=\x22(max-width: 767px)\x22 srcset=\x22")
  ++ spBNP
  ++ cs (".avif\x22 type=\x22image/avif\x22>\n  <source media=\x22(max-width: 767px)\x22 srcset=\x22")
  ++ spBNP
  ++ cs (".webp\x22 type=\x22image/webp\x22>\n  <source media=\x22(max-width: 767px)\x22 srcset=\x22")
  ++ spSrcW
  ++ cs ("\x22>\n  <source srcset=\x22")
  ++ bNP
  ++ cs (".avif\x22 type=\x22image/avif\x22>\n  <source srcset=\x22")
  ++ bNP
  ++ cs (".webp\x22 type=\x22image/webp\x22>\n  <img")
  ++ before ++ cs ("src=\x22") ++ srcW ++ cs ("\x22") ++ na
  ++ cs (">\n</picture>")

/-- The two-source `<picture>` template emitted without an SP variant
(lines 625 to 629). -/
def picture2 (bNP before srcW na : Str) : Str :=
  cs ("<picture>\n  <source srcset=\x22")
  ++ bNP
  ++ cs (".avif\x22 type=\x22image/avif\x22>\n  <source srcset=\x22")
  ++ bNP
  ++ cs (".webp\x22 type=\x22image/webp\x22>\n  <img")
  ++ before ++ cs ("src=\x22") ++ srcW ++ cs ("\x22") ++ na
  ++ cs (">\n</picture>")

/-- A plain rebuilt `<img>` tag (lines 635 and 638). -/
def plainImg (before srcW na : Str) : Str :=
  cs ("<img") ++ before ++ cs ("src=\x22") ++ srcW ++ cs ("\x22") ++ na ++ cs (">")

/-- The replacement callback of the image regex (lines 564 to 638), acting
on the 1-based occurrence index and the three captured groups. -/
def imgReplacer (idx : Nat) (dims : DimTable) (pfx : Str) (spImages : List Str)
    (before sv after : Str) : Str :=
  let na := imgNewAfter idx dims before sv after
  let ext := lowerStr (extname sv)
  let abs := isPre (cs ("/")) sv || isPre (cs ("http")) sv
  if ext = cs (".png") ∨ ext = cs (".jpg") ∨ ext = cs (".jpeg") then
    let baseName := stripImgExt sv
    let imgPrefix := if abs then [] else if pfx ≠ [] then pfx ++ cs ("/") else []
    let srcWithPrefix := if abs then sv else imgPrefix ++ sv
    let baseNameWithPrefix := if abs then baseName else imgPrefix ++ baseName
    let relativeSrc := if isPre (cs ("/")) sv then sv.drop 1 else sv
    if spImages.contains relativeSrc then
      let spBaseName := stripImgExt baseName ++ cs ("-sp")
      let spBaseNameWithPrefix := if abs then spBaseName else imgPrefix ++ spBaseName
      let spSrcWithPrefix := if abs then spBaseName ++ ext else imgPrefix ++ spBaseName ++ ext
      picture5 spBaseNameWithPrefix spSrcWithPrefix baseNameWithPrefix before srcWithPrefix na
    else
      picture2 baseNameWithPrefix before srcWithPrefix na
  else
    if ¬ abs ∧ pfx ≠ [] then plainImg before (pfx ++ cs ("/") ++ sv) na
    else plainImg before sv na

def isQuote (c : Char) : Bool := c.toNat = 34 || c.toNat = 39

/-- Parse the tail of the image regex after the candidate `before` group:
literal `src=`, a quote, a nonempty quote-free run, a quote, an
angle-bracket-free run, a closing angle bracket.  All these quantifier
choices are forced, so the parse is deterministic; the result carries the
two remaining groups and the number of characters consumed. -/
def imgParseRest (v : Str) : Option (Str × Str × Nat) :=
  if isPreCI (cs ("src=")) v then
    match v.drop 4 with
    | q1 :: v2 =>
      if isQuote q1 then
        let sv := v2.takeWhile (fun c => ¬ isQuote c)
        if sv = [] then none
        else
          match v2.drop sv.length with
          | q2 :: v4 =>
            if isQuote q2 then
              let a := v4.takeWhile (fun c => c ≠ '>')
              match v4.drop a.length with
              | '>' :: _ => some (sv, a, 4 + 1 + sv.length + 1 + a.length + 1)
              | _ => none
            else none
          | [] => none
      else none
    | [] => none
  else none

/-- The greedy `before` group: candidate lengths are tried longest first
(the maximal angle-bracket-free run), exactly as regex backtracking does. -/
def imgTryK (u : Str) : Nat → Option (Str × Str × Str × Nat)
  | 0 =>
    (imgParseRest u).map (fun r => ([], r.1, r.2.1, 4 + r.2.2))
  | k + 1 =>
    match imgParseRest (u.drop (k + 1)) with
    | some r => some (u.take (k + 1), r.1, r.2.1, 4 + (k + 1) + r.2.2)
    | none => imgTryK u k

/-- Attempt of the image regex at the current position: the tag opener
(case-insensitive), then the backtracking search for the `src` attribute.
Returns the three groups and the total match length. -/
def imgMatchAt (s : Str) : Option (Str × Str × Str × Nat) :=
  if isPreCI (cs ("<img")) s then
    let u := s.drop 4
    imgTryK u (u.takeWhile (fun c => c ≠ '>')).length
  else none

/-- The global replacement loop over the image regex, threading the 1-based
occurrence counter. -/
def imgGo (fuel : Nat) (idx : Nat) (dims : DimTable) (pfx : Str)
    (spImages : List Str) : Str → Str
  | [] => []
  | c :: t =>
    match fuel with
    | 0 => c :: t
    | fuel + 1 =>
      match imgMatchAt (c :: t) with
      | some (before, sv, after, n) =>
        imgReplacer idx dims pfx spImages before sv after
          ++ imgGo fuel (idx + 1) dims pfx spImages ((c :: t).drop n)
      | none => c :: imgGo fuel idx dims pfx spImages t

/-- Attempt of the `<picture>` protection regex at the current position:
the lazy body ends at the first closing tag; returns the match length. -/
def pictureMatchAt (s : Str) : Option Nat :=
  if isPreCI (cs ("<picture")) s then
    (findSubCIIdx (cs ("</picture>")) (s.drop 8)).map (fun j => 8 + j + 10)
  else none

def placeholderStr (i : Nat) : Str :=
  cs ("__PICTURE_PLACEHOLDER_") ++ natToChars i ++ cs ("__")

/-- The protection pass: each matched block is pushed and replaced by its
placeholder token. -/
def extractGo (fuel : Nat) (acc : List Str) : Str → Str × List Str
  | [] => ([], acc)
  | c :: t =>
    match fuel with
    | 0 => (c :: t, acc)
    | fuel + 1 =>
      match pictureMatchAt (c :: t) with
      | some n =>
        let block := (c :: t).take n
        let r := extractGo fuel (acc ++ [block]) ((c :: t).drop n)
        (placeholderStr acc.length ++ r.1, r.2)
      | none =>
        let r := extractGo fuel acc t
        (c :: r.1, r.2)

/-- The restoration pass: each placeholder is put back through
`String.prototype.replace` with the block as the replacement string. -/
def restoreGo (i : Nat) (blocks : List Str) (h : Str) : Str :=
  match blocks with
  | [] => h
  | b :: bs => restoreGo (i + 1) bs (replaceFirstSub h (placeholderStr i) b)

/-- `processImages`: protect existing `<picture>` blocks, rewrite the
remaining `<img>` tags, restore the blocks.  The warnings list is reserved
and always empty. -/
def processImages (html : Str) (dims : DimTable) (basePath : Str)
    (spImages : List Str) : Str × List Str :=
  let pfx := if basePath ≠ [] then stripTrail basePath else []
  let er := extractGo html.length [] html
  let h2 := imgGo er.1.length 1 dims pfx spImages er.1
  (restoreGo 0 er.2 h2, [])

/-! ## Document assembler (the pure HTML part of `build`, lines 786 to 817) -/

/-- Attempt of the title regex (`<title>[^<]*<\/title>`, case-insensitive)
at the current position; the body run is forced, so the attempt is
deterministic. -/
def titleMatchAt (s : Str) : Option Nat :=
  if isPreCI (cs ("<title>")) s then
    let u := s.drop 7
    let body := u.takeWhile (fun c => c ≠ '<')
    if isPreCI (cs ("</title>")) (u.drop body.length) then
      some (7 + body.length + 8)
    else none
  else none

/-- First match of the title regex: `some (pre, matched, post)`. -/
def titleSplit : Str → Option (Str × Str × Str)
  | [] => none
  | c :: t =>
    match titleMatchAt (c :: t) with
    | some n => some ([], (c :: t).take n, (c :: t).drop n)
    | none => (titleSplit t).map (fun r => (c :: r.1, r.2.1, r.2.2))

/-- `html.replace(titleRegex, rep)` with a string replacement (dollar
substitution applies). -/
def replaceTitleSub (s rep : Str) : Str :=
  match titleSplit s with
  | none => s
  | some (pre, m, post) => pre ++ substDollar m pre post rep ++ post

/-- The title-substitution step of `build` (lines 786 to 788). -/
def titleStep (env : Env) (h : Str) : Str :=
  if getv env (cs ("SITE_TITLE")) ≠ [] then
    replaceTitleSub h (cs ("<title>") ++ escapeHtml (getv env (cs ("SITE_TITLE"))) ++ cs ("</title>"))
  else h

/-- The stylesheet/script reference rewrite of `build` (lines 813 to 817). -/
def cssJsStep (basePath h : Str) : Str :=
  let cssHref := if basePath ≠ [] then basePath ++ cs ("/style.min.css") else cs ("style.min.css")
  let jsHref := if basePath ≠ [] then basePath ++ cs ("/script.min.js") else cs ("script.min.js")
  replaceFirstSub
    (replaceFirstSub h (cs ("href=\x22style.css\x22")) (cs ("href=\x22") ++ cssHref ++ cs ("\x22")))
    (cs ("src=\x22script.js\x22")) (cs ("src=\x22") ++ jsHref ++ cs ("\x22"))

/-- The BASE_PATH normalisation of `build` (line 736). -/
def buildBasePath (env : Env) : Str :=
  if getv env (cs ("BASE_PATH")) ≠ [] then stripTrail (getv env (cs ("BASE_PATH"))) else []

/-- The pure HTML-assembly pipeline of `build`: title substitution, head
injections of the meta/OGP, analytics, favicon and structured-data
fragments (each through `String.prototype.replace` on the closing head
marker), image rewriting, stylesheet/script reference rewriting.  The
favicon fragment is produced by filesystem-dependent code and is passed in
as an argument. -/
def assembleHtml (env : Env) (html : Str) (dims : DimTable)
    (spImages : List Str) (faviconTags : Str) : Str :=
  let basePath := buildBasePath env
  let h1 := titleStep env html
  let h2 := replaceFirstSub h1 (cs ("</head>")) (generateMetaTags env ++ cs ("\n</head>"))
  let h3 := replaceFirstSub h2 (cs ("</head>")) (generateAnalyticsTags env ++ cs ("\n</head>"))
  let h4 := if faviconTags ≠ [] then
      replaceFirstSub h3 (cs ("</head>")) (faviconTags ++ cs ("\n</head>"))
    else h3
  let sd := generateStructuredData env h4
  let h5 := if sd ≠ [] then replaceFirstSub h4 (cs ("</head>")) (sd ++ cs ("\n</head>")) else h4
  let h6 := (processImages h5 dims basePath spImages).1
  cssJsStep basePath h6

/-- Modelled from the spec: literal injection of a fragment (followed by a
newline) immediately before the first occurrence of the closing head
marker, leaving the document unchanged when the marker is absent. -/
def insertBeforeHead (doc frag : Str) : Str :=
  match splitFirst (cs ("</head>")) doc with
  | none => doc
  | some pr => pr.1 ++ frag ++ cs ("\n</head>") ++ pr.2

/-- Modelled from the spec: the document after title substitution and the
first three head injections (meta/OGP, analytics, favicon), performed as
literal insertions before the marker. -/
def specInject3 (env : Env) (html fav : Str) : Str :=
  let h1 := titleStep env html
  let h2 := insertBeforeHead h1 (generateMetaTags env)
  let h3 := insertBeforeHead h2 (generateAnalyticsTags env)
  if fav ≠ [] then insertBeforeHead h3 fav else h3

/-- Modelled from the spec (section 4.3): sequential literal injection in
the order meta/OGP, analytics, favicon, structured data — the latter
computed from the document as it stands after the first three injections —
followed by the image-rewriting pass and the asset-reference rewrite. -/
def specAssembleDoc (env : Env) (html : Str) (dims : DimTable)
    (spImages : List Str) (fav : Str) : Str :=
  let basePath := buildBasePath env
  let h4 := specInject3 env html fav
  let sd := generateStructuredData env h4
  let h5 := if sd ≠ [] then insertBeforeHead h4 sd else h4
  cssJsStep basePath (processImages h5 dims basePath spImages).1


/-! ## Basic lemmas about the string operations -/

theorem countSub_cons (p : Str) (c : Char) (t : Str) :
    countSub p (c :: t) = (if isPre p (c :: t) then 1 else 0) + countSub p t := rfl

theorem isPre_append_self : ∀ (p y : Str), isPre p (p ++ y) = true
  | [], _ => rfl
  | c :: p, y => by simp [isPre, isPre_append_self p y]

theorem hasSub_of_isPre {p s : Str} (h : isPre p s = true) : hasSub p s = true := by
  cases s with
  | nil => cases p with
    | nil => rfl
    | cons c t => simp [isPre] at h
  | cons c t => simp [hasSub, h]

theorem hasSub_append_right {p y : Str} (h : hasSub p y = true) :
    ∀ x : Str, hasSub p (x ++ y) = true
  | [] => h
  | c :: x => by simp [hasSub, hasSub_append_right h x]

theorem hasSub_append_mid (p x y : Str) : hasSub p (x ++ (p ++ y)) = true :=
  hasSub_append_right (hasSub_of_isPre (isPre_append_self p y)) x

theorem isPre_pat_left : ∀ (p q s : Str), isPre (p ++ q) s = true → isPre p s = true
  | [], _, _, _ => rfl
  | c :: p, q, s, h => by
    cases s with
    | nil => simp [isPre] at h
    | cons d t =>
      simp [isPre] at h ⊢
      exact ⟨h.1, isPre_pat_left p q t h.2⟩

theorem hasSub_pat_left {p q : Str} : ∀ s : Str, hasSub (p ++ q) s = true → hasSub p s = true
  | [], h => by
    simp [hasSub, List.isEmpty_iff] at h ⊢
    exact h.1
  | c :: t, h => by
    simp [hasSub] at h ⊢
    rcases h with h | h
    · exact Or.inl (isPre_pat_left _ _ _ h)
    · exact Or.inr (hasSub_pat_left t h)

theorem isPre_length_le : ∀ {p s : Str}, isPre p s = true → p.length ≤ s.length
  | [], _, _ => Nat.zero_le _
  | c :: p, s, h => by
    cases s with
    | nil => simp [isPre] at h
    | cons d t =>
      simp [isPre] at h
      simpa using Nat.succ_le_succ (isPre_length_le h.2)

theorem isPre_append_of_le : ∀ (p x y : Str), p.length ≤ x.length →
    isPre p (x ++ y) = isPre p x
  | [], _, _, _ => rfl
  | c :: p, [], y, h => by simp at h
  | c :: p, d :: x, y, h => by
    simp only [List.cons_append, isPre]
    cases hcd : (c == d) with
    | false => simp
    | true =>
      simp only [Bool.true_and]
      exact isPre_append_of_le p x y (Nat.le_of_succ_le_succ (by simpa using h))

theorem isPre_straddle : ∀ (p x y : Str), x.length ≤ p.length →
    isPre p (x ++ y) = true → isPre x p = true
  | _, [], _, _, _ => rfl
  | p, d :: x, y, hl, h => by
    cases p with
    | nil => simp at hl
    | cons c p =>
      simp [isPre] at h ⊢
      exact ⟨(h.1).symm, isPre_straddle p x y (Nat.le_of_succ_le_succ (by simpa using hl)) h.2⟩

/-- Side condition for splitting a count over a concrete literal chunk: no
nonempty suffix of the chunk shorter than the pattern is a prefix of the
pattern, so no occurrence straddles the boundary. -/
def litOk (p lit : Str) : Bool :=
  lit.tails.all (fun t => t.isEmpty || decide (p.length ≤ t.length) || !(isPre t p))

theorem litOk_tail {p : Str} {c : Char} {lit : Str} (h : litOk p (c :: lit) = true) :
    litOk p lit = true := by
  simp [litOk, List.tails_cons] at h
  simp [litOk]
  exact h.2

theorem litOk_head {p : Str} {c : Char} {lit : Str} (h : litOk p (c :: lit) = true)
    (hlt : (c :: lit).length < p.length) : isPre (c :: lit) p = false := by
  simp [litOk, List.tails_cons] at h
  rcases h.1 with h1 | h1
  · simp only [List.length_cons] at hlt h1 ⊢
    omega
  · exact h1

theorem countSub_skip_var {p : Str} (hp : ∃ q, p = '<' :: q) :
    ∀ (x y : Str), '<' ∉ x → countSub p (x ++ y) = countSub p y
  | [], _, _ => rfl
  | c :: x, y, hx => by
    obtain ⟨q, hpq⟩ := hp
    have hc : c ≠ '<' := fun h => hx (by simp [h])
    have hx' : '<' ∉ x := fun h => hx (by simp [h])
    rw [List.cons_append, countSub_cons]
    have : isPre p (c :: (x ++ y)) = false := by
      subst hpq
      simp [isPre]
      intro h
      exact absurd h.symm hc
    rw [this]
    simp [countSub_skip_var ⟨q, hpq⟩ x y hx']

theorem countSub_split_lit {p : Str} (hp : p ≠ []) :
    ∀ (lit y : Str), litOk p lit = true →
      countSub p (lit ++ y) = countSub p lit + countSub p y
  | [], y, _ => by simp [countSub, List.isEmpty_iff, hp]
  | c :: lit, y, h => by
    have hrec := countSub_split_lit hp lit y (litOk_tail h)
    rw [List.cons_append, countSub_cons, countSub_cons, hrec]
    have hpre : isPre p (c :: (lit ++ y)) = isPre p (c :: lit) := by
      rcases Nat.lt_or_ge (c :: lit).length p.length with hlt | hge
      · have hno := litOk_head h hlt
        have h1 : isPre p ((c :: lit) ++ y) = false := by
          cases hb : isPre p ((c :: lit) ++ y) with
          | false => rfl
          | true =>
            have := isPre_straddle p (c :: lit) y (Nat.le_of_lt hlt) hb
            rw [hno] at this
            exact absurd this (by simp)
        have h2 : isPre p (c :: lit) = false := by
          cases hb : isPre p (c :: lit) with
          | false => rfl
          | true => exact absurd (isPre_length_le hb) (Nat.not_le_of_lt hlt)
        rw [← List.cons_append, h1, h2]
      · rw [← List.cons_append, isPre_append_of_le p (c :: lit) y hge]
    rw [hpre]
    omega

/-! Character-membership helpers used to track that the interpolated pieces
of the emitted templates contain no tag-opening character. -/

theorem not_mem_append_chr {c : Char} {x y : Str} (hx : c ∉ x) (hy : c ∉ y) :
    c ∉ x ++ y := by
  simp only [List.mem_append, not_or]
  exact ⟨hx, hy⟩

theorem not_mem_ite_chr {c : Char} {P : Prop} [Decidable P] {x y : Str}
    (hx : c ∉ x) (hy : c ∉ y) : c ∉ (if P then x else y) := by
  split <;> assumption

theorem not_mem_take_chr {c : Char} {l : Str} {n : Nat} (h : c ∉ l) : c ∉ l.take n :=
  fun hc => h (List.mem_of_mem_take hc)

theorem not_mem_stripImgExt {c : Char} {s : Str} (h : c ∉ s) : c ∉ stripImgExt s := by
  unfold stripImgExt
  split
  · exact not_mem_take_chr h
  · split
    · exact not_mem_take_chr h
    · split
      · exact not_mem_take_chr h
      · exact h

theorem digitChar_ne_lt (d : Nat) : digitChar d ≠ '<' := by
  unfold digitChar
  repeat' split
  all_goals decide

theorem not_mem_natToCharsAux : ∀ (fuel n : Nat), '<' ∉ natToCharsAux fuel n
  | 0, _ => by simp [natToCharsAux]
  | fuel + 1, n => by
    unfold natToCharsAux
    split
    · simp
      exact fun h => digitChar_ne_lt n h.symm
    · exact not_mem_append_chr (not_mem_natToCharsAux fuel (n / 10))
        (by simp; exact fun h => digitChar_ne_lt (n % 10) h.symm)

theorem not_mem_natToChars (n : Nat) : '<' ∉ natToChars n :=
  not_mem_natToCharsAux (n + 1) n

theorem not_mem_imgDimAfter {dims : DimTable} {b sv a : Str} (ha : '<' ∉ a) :
    '<' ∉ imgDimAfter dims b sv a := by
  dsimp only [imgDimAfter]
  split
  · split
    · refine not_mem_append_chr (not_mem_append_chr ha (not_mem_ite_chr ?_ (by simp)))
        (not_mem_ite_chr ?_ (by simp))
      · exact not_mem_append_chr (not_mem_append_chr (by decide) (not_mem_natToChars _))
          (by decide)
      · exact not_mem_append_chr (not_mem_append_chr (by decide) (not_mem_natToChars _))
          (by decide)
    · exact ha
  · exact ha

theorem not_mem_imgNewAfter {idx : Nat} {dims : DimTable} {b sv a : Str} (ha : '<' ∉ a) :
    '<' ∉ imgNewAfter idx dims b sv a := by
  dsimp only [imgNewAfter]
  split
  · exact not_mem_append_chr (not_mem_imgDimAfter ha) (by decide)
  · exact not_mem_imgDimAfter ha

/-! Counting the emitted source and image tags of the two templates. -/

theorem counts5_all (x1 x2 x3 b srcW na : Str)
    (h1 : '<' ∉ x1) (h2 : '<' ∉ x2) (h3 : '<' ∉ x3)
    (hb : '<' ∉ b) (hs : '<' ∉ srcW) (hn : '<' ∉ na) :
    countSub (cs ("<source")) (picture5 x1 x2 x3 b srcW na) = 5 ∧
    countSub (cs ("<source media=\x22(max-width: 767px)\x22")) (picture5 x1 x2 x3 b srcW na) = 3 ∧
    countSub (cs ("<img")) (picture5 x1 x2 x3 b srcW na) = 1 := by
  have q1 : ∃ q, cs ("<source") = '<' :: q := ⟨cs ("source"), by decide⟩
  have q2 : ∃ q, cs ("<source media=\x22(max-width: 767px)\x22") = '<' :: q :=
    ⟨cs ("source media=\x22(max-width: 767px)\x22"), by decide⟩
  have q3 : ∃ q, cs ("<img") = '<' :: q := ⟨cs ("img"), by decide⟩
  unfold picture5
  simp only [List.append_assoc]
  refine ⟨?_, ?_, ?_⟩
  · rw [countSub_split_lit (by decide)
      (cs ("<picture>\n  <source media=\x22(max-width: 767px)\x22 srcset=\x22")) _ (by decide)]
    rw [countSub_skip_var q1 x1 _ h1]
    rw [countSub_split_lit (by decide)
      (cs (".avif\x22 type=\x22image/avif\x22>\n  <source media=\x22(max-width: 767px)\x22 srcset=\x22")) _ (by decide)]
    rw [countSub_skip_var q1 x1 _ h1]
    rw [countSub_split_lit (by decide)
      (cs (".webp\x22 type=\x22image/webp\x22>\n  <source media=\x22(max-width: 767px)\x22 srcset=\x22")) _ (by decide)]
    rw [countSub_skip_var q1 x2 _ h2]
    rw [countSub_split_lit (by decide) (cs ("\x22>\n  <source srcset=\x22")) _ (by decide)]
    rw [countSub_skip_var q1 x3 _ h3]
    rw [countSub_split_lit (by decide)
      (cs (".avif\x22 type=\x22image/avif\x22>\n  <source srcset=\x22")) _ (by decide)]
    rw [countSub_skip_var q1 x3 _ h3]
    rw [countSub_split_lit (by decide)
      (cs (".webp\x22 type=\x22image/webp\x22>\n  <img")) _ (by decide)]
    rw [countSub_skip_var q1 b _ hb]
    rw [countSub_split_lit (by decide) (cs ("src=\x22")) _ (by decide)]
    rw [countSub_skip_var q1 srcW _ hs]
    rw [countSub_split_lit (by decide) (cs ("\x22")) _ (by decide)]
    rw [countSub_skip_var q1 na _ hn]
    decide
  · rw [countSub_split_lit (by decide)
      (cs ("<picture>\n  <source media=\x22(max-width: 767px)\x22 srcset=\x22")) _ (by decide)]
    rw [countSub_skip_var q2 x1 _ h1]
    rw [countSub_split_lit (by decide)
      (cs (".avif\x22 type=\x22image/avif\x22>\n  <source media=\x22(max-width: 767px)\x22 srcset=\x22")) _ (by decide)]
    rw [countSub_skip_var q2 x1 _ h1]
    rw [countSub_split_lit (by decide)
      (cs (".webp\x22 type=\x22image/webp\x22>\n  <source media=\x22(max-width: 767px)\x22 srcset=\x22")) _ (by decide)]
    rw [countSub_skip_var q2 x2 _ h2]
    rw [countSub_split_lit (by decide) (cs ("\x22>\n  <source srcset=\x22")) _ (by decide)]
    rw [countSub_skip_var q2 x3 _ h3]
    rw [countSub_split_lit (by decide)
      (cs (".avif\x22 type=\x22image/avif\x22>\n  <source srcset=\x22")) _ (by decide)]
    rw [countSub_skip_var q2 x3 _ h3]
    rw [countSub_split_lit (by decide)
      (cs (".webp\x22 type=\x22image/webp\x22>\n  <img")) _ (by decide)]
    rw [countSub_skip_var q2 b _ hb]
    rw [countSub_split_lit (by decide) (cs ("src=\x22")) _ (by decide)]
    rw [countSub_skip_var q2 srcW _ hs]
    rw [countSub_split_lit (by decide) (cs ("\x22")) _ (by decide)]
    rw [countSub_skip_var q2 na _ hn]
    decide
  · rw [countSub_split_lit (by decide)
      (cs ("<picture>\n  <source media=\x22(max-width: 767px)\x22 srcset=\x22")) _ (by decide)]
    rw [countSub_skip_var q3 x1 _ h1]
    rw [countSub_split_lit (by decide)
      (cs (".avif\x22 type=\x22image/avif\x22>\n  <source media=\x22(max-width: 767px)\x22 srcset=\x22")) _ (by decide)]
    rw [countSub_skip_var q3 x1 _ h1]
    rw [countSub_split_lit (by decide)
      (cs (".webp\x22 type=\x22image/webp\x22>\n  <source media=\x22(max-width: 767px)\x22 srcset=\x22")) _ (by decide)]
    rw [countSub_skip_var q3 x2 _ h2]
    rw [countSub_split_lit (by decide) (cs ("\x22>\n  <source srcset=\x22")) _ (by decide)]
    rw [countSub_skip_var q3 x3 _ h3]
    rw [countSub_split_lit (by decide)
      (cs (".avif\x22 type=\x22image/avif\x22>\n  <source srcset=\x22")) _ (by decide)]
    rw [countSub_skip_var q3 x3 _ h3]
    rw [countSub_split_lit (by decide)
      (cs (".webp\x22 type=\x22image/webp\x22>\n  <img")) _ (by decide)]
    rw [countSub_skip_var q3 b _ hb]
    rw [countSub_split_lit (by decide) (cs ("src=\x22")) _ (by decide)]
    rw [countSub_skip_var q3 srcW _ hs]
    rw [countSub_split_lit (by decide) (cs ("\x22")) _ (by decide)]
    rw [countSub_skip_var q3 na _ hn]
    decide

theorem counts2_all (x3 b srcW na : Str)
    (h3 : '<' ∉ x3) (hb : '<' ∉ b) (hs : '<' ∉ srcW) (hn : '<' ∉ na) :
    countSub (cs ("<source")) (picture2 x3 b srcW na) = 2 ∧
    countSub (cs ("<source media=\x22(max-width: 767px)\x22")) (picture2 x3 b srcW na) = 0 ∧
    countSub (cs ("<img")) (picture2 x3 b srcW na) = 1 := by
  have q1 : ∃ q, cs ("<source") = '<' :: q := ⟨cs ("source"), by decide⟩
  have q2 : ∃ q, cs ("<source media=\x22(max-width: 767px)\x22") = '<' :: q :=
    ⟨cs ("source media=\x22(max-width: 767px)\x22"), by decide⟩
  have q3 : ∃ q, cs ("<img") = '<' :: q := ⟨cs ("img"), by decide⟩
  unfold picture2
  simp only [List.append_assoc]
  refine ⟨?_, ?_, ?_⟩
  · rw [countSub_split_lit (by decide) (cs ("<picture>\n  <source srcset=\x22")) _ (by decide)]
    rw [countSub_skip_var q1 x3 _ h3]
    rw [countSub_split_lit (by decide)
      (cs (".avif\x22 type=\x22image/avif\x22>\n  <source srcset=\x22")) _ (by decide)]
    rw [countSub_skip_var q1 x3 _ h3]
    rw [countSub_split_lit (by decide)
      (cs (".webp\x22 type=\x22image/webp\x22>\n  <img")) _ (by decide)]
    rw [countSub_skip_var q1 b _ hb]
    rw [countSub_split_lit (by decide) (cs ("src=\x22")) _ (by decide)]
    rw [countSub_skip_var q1 srcW _ hs]
    rw [countSub_split_lit (by decide) (cs ("\x22")) _ (by decide)]
    rw [countSub_skip_var q1 na _ hn]
    decide
  · rw [countSub_split_lit (by decide) (cs ("<picture>\n  <source srcset=\x22")) _ (by decide)]
    rw [countSub_skip_var q2 x3 _ h3]
    rw [countSub_split_lit (by decide)
      (cs (".avif\x22 type=\x22image/avif\x22>\n  <source srcset=\x22")) _ (by decide)]
    rw [countSub_skip_var q2 x3 _ h3]
    rw [countSub_split_lit (by decide)
      (cs (".webp\x22 type=\x22image/webp\x22>\n  <img")) _ (by decide)]
    rw [countSub_skip_var q2 b _ hb]
    rw [countSub_split_lit (by decide) (cs ("src=\x22")) _ (by decide)]
    rw [countSub_skip_var q2 srcW _ hs]
    rw [countSub_split_lit (by decide) (cs ("\x22")) _ (by decide)]
    rw [countSub_skip_var q2 na _ hn]
    decide
  · rw [countSub_split_lit (by decide) (cs ("<picture>\n  <source srcset=\x22")) _ (by decide)]
    rw [countSub_skip_var q3 x3 _ h3]
    rw [countSub_split_lit (by decide)
      (cs (".avif\x22 type=\x22image/avif\x22>\n  <source srcset=\x22")) _ (by decide)]
    rw [countSub_skip_var q3 x3 _ h3]
    rw [countSub_split_lit (by decide)
      (cs (".webp\x22 type=\x22image/webp\x22>\n  <img")) _ (by decide)]
    rw [countSub_skip_var q3 b _ hb]
    rw [countSub_split_lit (by decide) (cs ("src=\x22")) _ (by decide)]
    rw [countSub_skip_var q3 srcW _ hs]
    rw [countSub_split_lit (by decide) (cs ("\x22")) _ (by decide)]
    rw [countSub_skip_var q3 na _ hn]
    decide

/-- C1: an image whose extension is png/jpg/jpeg (case-insensitively, as
`path.extname` computes it) is replaced by a `<picture>` block with exactly
5 `<source>` elements (3 of them scoped to the 767px media query) plus one
`<img>` when its slash-stripped path is in the SP-image set, and exactly
2 `<source>` elements (none media-scoped) plus one `<img>` otherwise.  The
hypotheses that the captured attribute text, the source path and the
configured prefix contain no tag-opening character make the element counts
equal to the substring counts. -/
theorem c1_picture_source_counts (idx : Nat) (dims : DimTable) (pfx : Str)
    (sp : List Str) (b sv a : Str)
    (hb : '<' ∉ b) (ha : '<' ∉ a) (hsv : '<' ∉ sv) (hpfx : '<' ∉ pfx)
    (hext : lowerStr (extname sv) = cs (".png") ∨ lowerStr (extname sv) = cs (".jpg") ∨
      lowerStr (extname sv) = cs (".jpeg")) :
    (sp.contains (if isPre (cs ("/")) sv then sv.drop 1 else sv) = true →
      countSub (cs ("<source")) (imgReplacer idx dims pfx sp b sv a) = 5 ∧
      countSub (cs ("<source media=\x22(max-width: 767px)\x22"))
        (imgReplacer idx dims pfx sp b sv a) = 3 ∧
      countSub (cs ("<img")) (imgReplacer idx dims pfx sp b sv a) = 1) ∧
    (sp.contains (if isPre (cs ("/")) sv then sv.drop 1 else sv) = false →
      countSub (cs ("<source")) (imgReplacer idx dims pfx sp b sv a) = 2 ∧
      countSub (cs ("<source media=\x22(max-width: 767px)\x22"))
        (imgReplacer idx dims pfx sp b sv a) = 0 ∧
      countSub (cs ("<img")) (imgReplacer idx dims pfx sp b sv a) = 1) := by
  have hImgP : '<' ∉ (if (isPre (cs ("/")) sv || isPre (cs ("http")) sv) = true then ([] : Str)
      else if pfx ≠ [] then pfx ++ cs ("/") else []) :=
    not_mem_ite_chr (by simp) (not_mem_ite_chr (not_mem_append_chr hpfx (by decide)) (by simp))
  have hBase : '<' ∉ stripImgExt sv := not_mem_stripImgExt hsv
  have hSpBase : '<' ∉ stripImgExt (stripImgExt sv) ++ cs ("-sp") :=
    not_mem_append_chr (not_mem_stripImgExt hBase) (by decide)
  have hExt : '<' ∉ lowerStr (extname sv) := by
    rcases hext with h | h | h <;> rw [h] <;> decide
  have hna : '<' ∉ imgNewAfter idx dims b sv a := not_mem_imgNewAfter ha
  constructor
  · intro hsp
    dsimp only [imgReplacer]
    rw [if_pos hext, if_pos hsp]
    exact counts5_all _ _ _ _ _ _
      (not_mem_ite_chr hSpBase (not_mem_append_chr hImgP hSpBase))
      (not_mem_ite_chr (not_mem_append_chr hSpBase hExt)
        (not_mem_append_chr (not_mem_append_chr hImgP hSpBase) hExt))
      (not_mem_ite_chr hBase (not_mem_append_chr hImgP hBase))
      hb
      (not_mem_ite_chr hsv (not_mem_append_chr hImgP hsv))
      hna
  · intro hsp
    dsimp only [imgReplacer]
    rw [if_pos hext, if_neg (by rw [hsp]; exact Bool.false_ne_true)]
    exact counts2_all _ _ _ _
      (not_mem_ite_chr hBase (not_mem_append_chr hImgP hBase))
      hb
      (not_mem_ite_chr hsv (not_mem_append_chr hImgP hsv))
      hna

/-- Witness for C1 at a concrete image with an SP variant. -/
theorem c1_picture_source_counts_witness :
    (('<' ∉ cs (" ")) ∧ ('<' ∉ ([] : Str)) ∧ ('<' ∉ cs ("a.png")) ∧
      lowerStr (extname (cs ("a.png"))) = cs (".png") ∧
      [cs ("a.png")].contains (if isPre (cs ("/")) (cs ("a.png")) then (cs ("a.png")).drop 1
        else cs ("a.png")) = true) ∧
    countSub (cs ("<source")) (imgReplacer 1 [] [] [cs ("a.png")] (cs (" ")) (cs ("a.png")) []) = 5 ∧
    countSub (cs ("<source media=\x22(max-width: 767px)\x22"))
      (imgReplacer 1 [] [] [cs ("a.png")] (cs (" ")) (cs ("a.png")) []) = 3 ∧
    countSub (cs ("<img")) (imgReplacer 1 [] [] [cs ("a.png")] (cs (" ")) (cs ("a.png")) []) = 1 :=
  ⟨⟨by decide, by decide, by decide, by decide, by decide⟩,
   (c1_picture_source_counts 1 [] [] [cs ("a.png")] (cs (" ")) (cs ("a.png")) []
     (by decide) (by decide) (by decide) (by decide) (Or.inl (by decide))).1 (by decide)⟩

/-! Extension lemmas for substring occurrences under appending. -/

theorem isPre_append_ext : ∀ (p t y : Str), isPre p t = true → isPre p (t ++ y) = true
  | [], _, _, _ => rfl
  | c :: p, t, y, h => by
    cases t with
    | nil => simp [isPre] at h
    | cons d r =>
      simp [isPre] at h ⊢
      exact ⟨h.1, isPre_append_ext p r y h.2⟩

theorem hasSub_append_left {p : Str} : ∀ {x : Str} (y : Str),
    hasSub p x = true → hasSub p (x ++ y) = true
  | [], y, h => by
    simp [hasSub, List.isEmpty_iff] at h
    subst h
    exact hasSub_of_isPre (by cases y <;> simp [isPre])
  | c :: x, y, h => by
    simp [hasSub] at h ⊢
    rcases h with h | h
    · exact Or.inl (isPre_append_ext _ _ _ h)
    · exact Or.inr (hasSub_append_left y h)

/-! The escaping pass of `escapeJsonLd` eliminates every closing-tag
opener from its output. -/

theorem escLtSlash_aux : ∀ s : Str,
    hasSub (cs ("</")) (escLtSlash s) = false ∧ (escLtSlash s).head? = s.head? := by
  intro s
  induction s using escLtSlash.induct with
  | case1 t ih =>
    simp only [escLtSlash]
    refine ⟨?_, rfl⟩
    simp only [hasSub, isPre]
    simp [ih.1]
  | case2 c t hne ih =>
    have hstep : escLtSlash (c :: t) = c :: escLtSlash t := by
      rw [escLtSlash.eq_def]
      split
      · rename_i t1 heq
        injection heq with h1 h2
        exact (hne t1 h1 h2).elim
      · rename_i c1 t1 heq
        injection heq with h1 h2
        rw [← h1, ← h2]
      · rename_i heq
        simp at heq
    rw [hstep]
    refine ⟨?_, by simp⟩
    simp only [hasSub]
    rw [ih.1]
    simp only [Bool.or_false]
    by_cases hc : c = '<'
    · subst hc
      cases t with
      | nil => simp [escLtSlash, isPre]
      | cons d r =>
        have hd : d ≠ '/' := fun h => hne r rfl (by rw [h])
        cases hesc : escLtSlash (d :: r) with
        | nil =>
          have hh := ih.2
          rw [hesc] at hh
          simp at hh
        | cons e es =>
          have hh := ih.2
          rw [hesc] at hh
          simp at hh
          subst hh
          simp [isPre]
          intro h
          exact absurd h.symm hd
    · simp [isPre]
      intro h
      exact absurd h.symm hc
  | case3 => exact ⟨rfl, rfl⟩

/-- C6: no JSON-LD payload emitted by the structured-data generator can
contain the closing script-tag opener: `escapeJsonLd` removes every
occurrence of the two-character closing sequence from the serialised JSON,
whatever object the builders produce. -/
theorem c6_jsonld_escapes_script_close (j : Json) :
    hasSub (cs ("</script")) (escapeJsonLd j) = false ∧
    hasSub (cs ("</")) (escapeJsonLd j) = false := by
  have h2 : hasSub (cs ("</")) (escapeJsonLd j) = false :=
    (escLtSlash_aux (jsonStringify j)).1
  refine ⟨?_, h2⟩
  by_contra hb
  rw [Bool.not_eq_false] at hb
  have heq : cs ("</script") = cs ("</") ++ cs ("script") := by decide
  rw [heq] at hb
  have hx := hasSub_pat_left (escapeJsonLd j) hb
  rw [h2] at hx
  exact Bool.false_ne_true hx

/-- C9: on the empty configuration map, the meta/OGP generator emits
exactly the three default tags (og:type, og:locale, twitter:card), with
their default values, and nothing else. -/
theorem c9_default_meta_tags :
    generateMetaTags [] =
      cs ("<!-- OGP -->\n<meta property=\x22og:type\x22 content=\x22website\x22>\n<meta property=\x22og:locale\x22 content=\x22ja_JP\x22>\n<meta name=\x22twitter:card\x22 content=\x22summary_large_image\x22>") := by
  decide

/-- C2 (code bug): a pre-existing `<picture>` block containing the
replacement pattern `$&` is not restored verbatim — the restoration step
uses `String.prototype.replace` with the block as the replacement string,
so its dollar sequences are substituted, here by the placeholder token.
The input document is returned with the block mangled. -/
theorem c2_dollar_block_not_roundtripped :
    processImages (cs ("<picture>$&</picture>")) [] [] [] =
      (cs ("<picture>__PICTURE_PLACEHOLDER_0__</picture>"), []) ∧
    hasSub (cs ("<picture>$&</picture>"))
      (processImages (cs ("<picture>$&</picture>")) [] [] []).1 = false := by
  constructor
  · decide
  · decide

/-- C4: an `<img>` that already carries both a `width=` and a `height=`
attribute (anywhere in its attribute text) gets no dimension lookup — the
attribute text after the source is returned unchanged and the rewriter
output does not depend on the dimension table at all. -/
theorem c4_existing_dims_untouched (idx : Nat) (d1 d2 : DimTable) (pfx : Str)
    (sp : List Str) (b sv a : Str)
    (hw : hasSubCI (cs ("width=")) (b ++ a) = true)
    (hh : hasSubCI (cs ("height=")) (b ++ a) = true) :
    imgDimAfter d1 b sv a = a ∧
    imgReplacer idx d1 pfx sp b sv a = imgReplacer idx d2 pfx sp b sv a := by
  have hdim : ∀ d : DimTable, imgDimAfter d b sv a = a := by
    intro d
    dsimp only [imgDimAfter]
    rw [if_neg (by simp [hw, hh])]
  refine ⟨hdim d1, ?_⟩
  dsimp only [imgReplacer, imgNewAfter]
  simp only [hdim d1, hdim d2]

/-- Witness for C4. -/
theorem c4_existing_dims_untouched_witness :
    (hasSubCI (cs ("width=")) (cs (" width=\x225\x22 height=\x226\x22 ") ++ []) = true ∧
     hasSubCI (cs ("height=")) (cs (" width=\x225\x22 height=\x226\x22 ") ++ []) = true) ∧
    imgDimAfter [(cs ("x.png"), 10, 20)] (cs (" width=\x225\x22 height=\x226\x22 ")) (cs ("x.png")) [] = [] ∧
    imgReplacer 2 [(cs ("x.png"), 10, 20)] [] [] (cs (" width=\x225\x22 height=\x226\x22 ")) (cs ("x.png")) [] =
      imgReplacer 2 [] [] [] (cs (" width=\x225\x22 height=\x226\x22 ")) (cs ("x.png")) [] :=
  ⟨⟨by decide, by decide⟩,
   (c4_existing_dims_untouched 2 [(cs ("x.png"), 10, 20)] [] [] [] (cs (" width=\x225\x22 height=\x226\x22 "))
     (cs ("x.png")) [] (by decide) (by decide)).1,
   (c4_existing_dims_untouched 2 [(cs ("x.png"), 10, 20)] [] [] [] (cs (" width=\x225\x22 height=\x226\x22 "))
     (cs ("x.png")) [] (by decide) (by decide)).2⟩

/-- C3: the first `<img>` occurrence (index 1, as the global pass numbers
the matches outside protected `<picture>` blocks) never receives the lazy
attribute — its rewritten attribute text is exactly the width/height
augmentation; every later occurrence without a pre-existing `loading`
attribute gets ` loading="lazy"` appended, and the emitted markup contains
it. -/
theorem c3_lazy_loading_policy (idx : Nat) (dims : DimTable) (pfx : Str)
    (sp : List Str) (b sv a : Str) :
    imgNewAfter 1 dims b sv a = imgDimAfter dims b sv a ∧
    (idx ≠ 1 → hasSubCI (cs ("loading=")) (b ++ a) = false →
      imgNewAfter idx dims b sv a = imgDimAfter dims b sv a ++ cs (" loading=\x22lazy\x22") ∧
      hasSub (cs (" loading=\x22lazy\x22")) (imgReplacer idx dims pfx sp b sv a) = true) := by
  constructor
  · dsimp only [imgNewAfter]
    rw [if_neg (by simp)]
  · intro hidx hlz
    have hna : imgNewAfter idx dims b sv a =
        imgDimAfter dims b sv a ++ cs (" loading=\x22lazy\x22") := by
      dsimp only [imgNewAfter]
      rw [if_pos ⟨hidx, by simp [hlz]⟩]
    refine ⟨hna, ?_⟩
    have hin : hasSub (cs (" loading=\x22lazy\x22")) (imgNewAfter idx dims b sv a) = true := by
      rw [hna]
      have h := hasSub_append_mid (cs (" loading=\x22lazy\x22")) (imgDimAfter dims b sv a) []
      simpa using h
    dsimp only [imgReplacer, picture5, picture2, plainImg]
    split
    · split <;> split <;> exact hasSub_append_left _ (hasSub_append_right hin _)
    · split <;> exact hasSub_append_left _ (hasSub_append_right hin _)

/-- Witness for C3 at a concrete second occurrence. -/
theorem c3_lazy_loading_policy_witness :
    imgNewAfter 1 [] (cs (" ")) (cs ("a.png")) [] = imgDimAfter [] (cs (" ")) (cs ("a.png")) [] ∧
    ((2 : Nat) ≠ 1 ∧ hasSubCI (cs ("loading=")) (cs (" ") ++ []) = false) ∧
    imgNewAfter 2 [] (cs (" ")) (cs ("a.png")) [] =
      imgDimAfter [] (cs (" ")) (cs ("a.png")) [] ++ cs (" loading=\x22lazy\x22") ∧
    hasSub (cs (" loading=\x22lazy\x22")) (imgReplacer 2 [] [] [] (cs (" ")) (cs ("a.png")) []) = true :=
  ⟨(c3_lazy_loading_policy 2 [] [] [] (cs (" ")) (cs ("a.png")) []).1,
   ⟨by decide, by decide⟩,
   ((c3_lazy_loading_policy 2 [] [] [] (cs (" ")) (cs ("a.png")) []).2 (by decide) (by decide)).1,
   ((c3_lazy_loading_policy 2 [] [] [] (cs (" ")) (cs ("a.png")) []).2 (by decide) (by decide)).2⟩

/-- Occurrence of the quoted source attribute inside the emitted markup. -/
theorem hasSub_src_attr (e x na last : Str) :
    hasSub ((cs ("src=\x22") ++ e) ++ cs ("\x22"))
      (((((x ++ cs ("src=\x22")) ++ e) ++ cs ("\x22")) ++ na) ++ last) = true := by
  have h := hasSub_append_mid ((cs ("src=\x22") ++ e) ++ cs ("\x22")) x (na ++ last)
  have he : x ++ (((cs ("src=\x22") ++ e) ++ cs ("\x22")) ++ (na ++ last)) =
      ((((x ++ cs ("src=\x22")) ++ e) ++ cs ("\x22")) ++ na) ++ last := by
    simp [List.append_assoc]
  rwa [he] at h

/-- C8: on every branch of the image rewriter — picture conversion with or
without an SP variant, and plain tags — the emitted markup carries the
quoted source attribute with the effective path: sources beginning with a
slash or with `http` are emitted unchanged, every other source is prefixed
with the trailing-slash-normalised base path plus a slash when one is
configured. -/
theorem c8_src_prefix_policy (idx : Nat) (dims : DimTable) (basePath : Str)
    (sp : List Str) (b sv a : Str) :
    hasSub
      ((cs ("src=\x22")
        ++ (if (isPre (cs ("/")) sv || isPre (cs ("http")) sv) = true then sv
            else if (if basePath ≠ [] then stripTrail basePath else []) ≠ [] then
              (if basePath ≠ [] then stripTrail basePath else []) ++ cs ("/") ++ sv
            else sv))
        ++ cs ("\x22"))
      (imgReplacer idx dims (if basePath ≠ [] then stripTrail basePath else []) sp b sv a)
      = true := by
  generalize (if basePath ≠ [] then stripTrail basePath else []) = pfx
  dsimp only [imgReplacer, picture5, picture2, plainImg]
  by_cases habs : (isPre (cs ("/")) sv || isPre (cs ("http")) sv) = true
  · simp only [if_pos habs]
    split
    · split <;> split <;> exact hasSub_src_attr sv _ _ _
    · split
      · rename_i hcond
        exact absurd habs hcond.1
      · exact hasSub_src_attr sv _ _ _
  · simp only [if_neg habs]
    by_cases hpfx : pfx ≠ []
    · simp only [if_pos hpfx]
      split
      · split <;> split <;> exact hasSub_src_attr _ _ _ _
      · split
        · exact hasSub_src_attr _ _ _ _
        · rename_i hcond
          exact absurd ⟨habs, hpfx⟩ hcond
    · simp only [if_neg hpfx, List.nil_append]
      split
      · split <;> split <;> exact hasSub_src_attr sv _ _ _
      · split
        · rename_i hcond
          exact absurd hcond.2 hpfx
        · exact hasSub_src_attr sv _ _ _

/-! ## C10: unquoted source attributes never match the image regex -/

/-- No case-insensitive occurrence of `src=` in the text is immediately
followed by a quote character: the formal counterpart of "the src
attribute value is not enclosed in double or single quotes". -/
def noQuotedSrc (s : Str) : Bool :=
  s.tails.all (fun w => !(isPreCI (cs ("src=")) w) ||
    (match w.drop 4 with | [] => true | c :: _ => !(isQuote c)))

theorem noQuotedSrc_drop {s : Str} (h : noQuotedSrc s = true) (n : Nat) :
    isPreCI (cs ("src=")) (s.drop n) = true →
      (match (s.drop n).drop 4 with | [] => True | c :: _ => isQuote c = false) := by
  intro hp
  have hmem : s.drop n ∈ s.tails := by
    rw [List.mem_tails]
    exact List.drop_suffix n s
  rw [noQuotedSrc, List.all_eq_true] at h
  have hm := h (s.drop n) hmem
  rw [hp] at hm
  simp only [Bool.not_true, Bool.false_or] at hm
  cases hd : (s.drop n).drop 4 with
  | nil => trivial
  | cons c r =>
    rw [hd] at hm
    simpa using hm

theorem imgParseRest_none {v : Str}
    (h : isPreCI (cs ("src=")) v = true →
      (match v.drop 4 with | [] => True | c :: _ => isQuote c = false)) :
    imgParseRest v = none := by
  dsimp only [imgParseRest]
  split
  · rename_i hpre
    have h4 := h hpre
    cases hd : v.drop 4 with
    | nil => rfl
    | cons q1 v2 =>
      rw [hd] at h4
      have h5 : isQuote q1 = false := h4
      simp [h5]
  · rfl

theorem imgTryK_none {u : Str} (h : ∀ k', imgParseRest (u.drop k') = none) :
    ∀ k, imgTryK u k = none
  | 0 => by
    have h0 := h 0
    rw [List.drop_zero] at h0
    rw [imgTryK, h0]
    rfl
  | k + 1 => by
    rw [imgTryK, h (k + 1)]
    exact imgTryK_none h k

theorem imgMatchAt_none {s : Str} (h : noQuotedSrc s = true) : imgMatchAt s = none := by
  dsimp only [imgMatchAt]
  split
  · rw [imgTryK_none]
    intro k'
    rw [List.drop_drop]
    exact imgParseRest_none (noQuotedSrc_drop h (4 + k'))
  · rfl

theorem noQuotedSrc_tail {c : Char} {t : Str} (h : noQuotedSrc (c :: t) = true) :
    noQuotedSrc t = true := by
  rw [noQuotedSrc, List.tails_cons, List.all_cons] at h
  exact (Bool.and_eq_true_iff.mp h).2

theorem imgGo_id {dims : DimTable} {pfx : Str} {sp : List Str} :
    ∀ (s : Str), noQuotedSrc s = true → ∀ (fuel idx : Nat),
      imgGo fuel idx dims pfx sp s = s
  | [], _, fuel, idx => by cases fuel <;> rfl
  | c :: t, h, fuel, idx => by
    cases fuel with
    | zero => rfl
    | succ fuel =>
      rw [imgGo, imgMatchAt_none h]
      rw [imgGo_id t (noQuotedSrc_tail h) fuel idx]

theorem hasSub_false_tail {p : Str} {c : Char} {t : Str}
    (h : hasSub p (c :: t) = false) : hasSub p t = false := by
  rw [hasSub] at h
  exact (Bool.or_eq_false_iff.mp h).2

theorem hasSub_false_drop {p : Str} : ∀ (s : Str) (n : Nat),
    hasSub p s = false → hasSub p (s.drop n) = false
  | [], n, h => by simpa [List.drop_nil] using h
  | c :: t, 0, h => h
  | c :: t, n + 1, h => hasSub_false_drop t n (hasSub_false_tail h)

theorem findSubCIIdx_none {pat : Str} :
    ∀ (s : Str), hasSubCI pat s = false → findSubCIIdx pat s = none
  | [], h => by
    cases pat with
    | nil => simp [hasSubCI, lowerStr, hasSub] at h
    | cons x xs =>
      rw [findSubCIIdx, if_neg]
      simp [isPreCI, lowerStr, isPre]
  | c :: t, h => by
    rw [findSubCIIdx]
    have hsplit : hasSubCI pat (c :: t) =
        (isPreCI pat (c :: t) || hasSubCI pat t) := by
      simp only [hasSubCI, isPreCI, lowerStr, List.map_cons, hasSub]
    rw [hsplit] at h
    have h1 := (Bool.or_eq_false_iff.mp h).1
    have h2 := (Bool.or_eq_false_iff.mp h).2
    rw [if_neg (by rw [h1]; exact Bool.false_ne_true)]
    rw [findSubCIIdx_none t h2]
    rfl

theorem pictureMatchAt_none {s : Str}
    (h : hasSubCI (cs ("</picture>")) s = false) : pictureMatchAt s = none := by
  dsimp only [pictureMatchAt]
  split
  · rw [findSubCIIdx_none]
    · rfl
    · simp only [hasSubCI, lowerStr, List.map_drop] at h ⊢
      exact hasSub_false_drop _ 8 h
  · rfl

theorem extractGo_id : ∀ (s : Str), hasSubCI (cs ("</picture>")) s = false →
    ∀ (fuel : Nat) (acc : List Str), extractGo fuel acc s = (s, acc)
  | [], _, fuel, acc => by cases fuel <;> rfl
  | c :: t, h, fuel, acc => by
    cases fuel with
    | zero => rfl
    | succ fuel =>
      rw [extractGo, pictureMatchAt_none h]
      have hsplit : hasSubCI (cs ("</picture>")) (c :: t) =
          (isPreCI (cs ("</picture>")) (c :: t) || hasSubCI (cs ("</picture>")) t) := by
        simp only [hasSubCI, isPreCI, lowerStr, List.map_cons, hasSub]
      rw [hsplit] at h
      rw [extractGo_id t (Bool.or_eq_false_iff.mp h).2 fuel acc]

/-- C10: a document in which no `src=` (case-insensitively) is followed by
a quote character — in particular one whose `<img>` tags all carry
unquoted source attributes — is returned by the image rewriter completely
unchanged (no width/height, no lazy loading, no picture conversion, no
path prefixing), provided it contains no closing picture tag for the
protection pass to act on. -/
theorem c10_unquoted_src_untouched (dims : DimTable) (bp : Str) (sp : List Str)
    (s : Str) (hq : noQuotedSrc s = true)
    (hnp : hasSubCI (cs ("</picture>")) s = false) :
    processImages s dims bp sp = (s, []) := by
  dsimp only [processImages]
  rw [extractGo_id s hnp]
  rw [imgGo_id s hq]
  rfl

/-- Witness for C10 on a single unquoted-src image tag. -/
theorem c10_unquoted_src_untouched_witness :
    (noQuotedSrc (cs ("<img src=a.png>")) = true ∧
     hasSubCI (cs ("</picture>")) (cs ("<img src=a.png>")) = false) ∧
    processImages (cs ("<img src=a.png>")) [] [] [] = (cs ("<img src=a.png>"), []) :=
  ⟨⟨by decide, by decide⟩,
   c10_unquoted_src_untouched [] [] [] (cs ("<img src=a.png>")) (by decide) (by decide)⟩

/-! ## C5 and C7: the document assembler -/

set_option maxRecDepth 20000 in
/-- C5 counterexample: on the empty configuration map the meta/OGP
generator does not return an empty fragment (it emits the three default
tags), and the assembled document is not the input document modulo image
rewriting alone — the default meta fragment and the unconditional
analytics newline are injected before the closing head marker. -/
theorem c5_counterexample :
    generateMetaTags [] ≠ [] ∧
    assembleHtml [] (cs ("<head></head>")) [] [] [] ≠
      (processImages (cs ("<head></head>")) [] [] []).1 := by
  constructor
  · decide
  · decide

set_option maxRecDepth 20000 in
/-- C5 (amended): on the empty configuration map the analytics and
structured-data generators return empty fragments, the conversion-code
generator returns its non-empty provider-free skeleton, the meta/OGP
generator returns its non-empty default fragment, and — with no favicon
fragment — the assembled document is exactly the input document with the
default meta fragment plus a newline and a bare analytics newline injected
before the first closing head marker, then image-rewritten, then with the
stylesheet/script references rewritten. -/
theorem c5_empty_config_assembly (html : Str) (dims : DimTable) (sp : List Str) :
    generateAnalyticsTags [] = [] ∧
    (∀ h2 : Str, generateStructuredData [] h2 = []) ∧
    generateConversionCode [] ≠ [] ∧
    generateMetaTags [] ≠ [] ∧
    assembleHtml [] html dims sp [] =
      cssJsStep []
        ((processImages
          (replaceFirstSub
            (replaceFirstSub html (cs ("</head>"))
              (cs ("<!-- OGP -->\n<meta property=\x22og:type\x22 content=\x22website\x22>\n<meta property=\x22og:locale\x22 content=\x22ja_JP\x22>\n<meta name=\x22twitter:card\x22 content=\x22summary_large_image\x22>\n</head>")))
            (cs ("</head>")) (cs ("\n</head>")))
          dims [] sp).1) := by
  refine ⟨rfl, fun h2 => rfl, by decide, by decide, ?_⟩
  rfl

theorem substDollar_no_dollar (matched pre post : Str) :
    ∀ rep : Str, '$' ∉ rep → substDollar matched pre post rep = rep
  | [], _ => rfl
  | c :: rest, h => by
    have hc : c ≠ '$' := fun hcc => h (by simp [hcc])
    have hrest : '$' ∉ rest := fun hm => h (by simp [hm])
    rw [substDollar.eq_def]
    dsimp only
    rw [if_neg hc, substDollar_no_dollar matched pre post rest hrest]

/-- A head injection through `String.prototype.replace` equals the literal
insertion before the first marker whenever the fragment carries no dollar
character. -/
theorem replace_as_insert (s frag : Str) (h : '$' ∉ frag) :
    replaceFirstSub s (cs ("</head>")) (frag ++ cs ("\n</head>")) = insertBeforeHead s frag := by
  rw [replaceFirstSub, insertBeforeHead]
  cases hs : splitFirst (cs ("</head>")) s with
  | none => rfl
  | some pr =>
    obtain ⟨pre, post⟩ := pr
    show pre ++ substDollar (cs ("</head>")) pre post (frag ++ cs ("\n</head>")) ++ post =
      pre ++ frag ++ cs ("\n</head>") ++ post
    rw [substDollar_no_dollar (cs ("</head>")) pre post (frag ++ cs ("\n</head>"))
      (not_mem_append_chr h (by decide))]
    simp [List.append_assoc]

set_option maxRecDepth 20000 in
/-- C7 counterexample: with a configuration value containing the dollar
substitution pattern, the assembler's head injection is not the literal
insertion of the generated fragments before the closing head marker in
the specified order — `String.prototype.replace` substitutes the dollar
sequence inside the injected meta fragment. -/
theorem c7_counterexample :
    assembleHtml [(cs ("SITE_DESCRIPTION"), cs ("$&x"))] (cs ("<head></head>")) [] [] [] ≠
      specAssembleDoc [(cs ("SITE_DESCRIPTION"), cs ("$&x"))] (cs ("<head></head>")) [] [] [] := by
  decide

/-- C7 (amended): provided none of the four generated fragments contains a
dollar character, the assembler equals the specified composition: title
substitution, then literal injection immediately before the first closing
head marker in the order meta/OGP, analytics, favicon, structured data —
the structured-data fragment computed from the document after the first
three injections — followed by the image-rewriting pass and the asset
reference rewrite. -/
theorem c7_injection_order (env : Env) (html : Str) (dims : DimTable)
    (sp : List Str) (fav : Str)
    (hmark : hasSub (cs ("</head>")) html = true)
    (h1 : '$' ∉ generateMetaTags env)
    (h2 : '$' ∉ generateAnalyticsTags env)
    (h3 : '$' ∉ fav)
    (h4 : '$' ∉ generateStructuredData env (specInject3 env html fav)) :
    assembleHtml env html dims sp fav = specAssembleDoc env html dims sp fav := by
  have h4' := h4
  dsimp only [specInject3] at h4'
  dsimp only [assembleHtml, specAssembleDoc, specInject3]
  rw [replace_as_insert _ _ h1, replace_as_insert _ _ h2]
  by_cases hfav : fav ≠ []
  · rw [if_pos hfav] at h4' ⊢
    rw [if_pos hfav, replace_as_insert _ _ h3]
    by_cases hsd : generateStructuredData env
        (insertBeforeHead (insertBeforeHead (insertBeforeHead (titleStep env html)
          (generateMetaTags env)) (generateAnalyticsTags env)) fav) ≠ []
    · rw [if_pos hsd, if_pos hsd, replace_as_insert _ _ h4']
    · rw [if_neg hsd, if_neg hsd]
  · rw [if_neg hfav] at h4' ⊢
    rw [if_neg hfav]
    by_cases hsd : generateStructuredData env
        (insertBeforeHead (insertBeforeHead (titleStep env html)
          (generateMetaTags env)) (generateAnalyticsTags env)) ≠ []
    · rw [if_pos hsd, if_pos hsd, replace_as_insert _ _ h4']
    · rw [if_neg hsd, if_neg hsd]

/-- Witness for C7 on the empty configuration. -/
theorem c7_injection_order_witness :
    (hasSub (cs ("</head>")) (cs ("<head></head>")) = true ∧
     '$' ∉ generateMetaTags [] ∧ '$' ∉ generateAnalyticsTags [] ∧ '$' ∉ ([] : Str) ∧
     '$' ∉ generateStructuredData [] (specInject3 [] (cs ("<head></head>")) [])) ∧
    assembleHtml [] (cs ("<head></head>")) [] [] [] =
      specAssembleDoc [] (cs ("<head></head>")) [] [] [] :=
  ⟨⟨by decide, by decide, by decide, by decide, by decide⟩,
   c7_injection_order [] (cs ("<head></head>")) [] [] []
     (by decide) (by decide) (by decide) (by decide) (by decide)⟩
